import Mathlib

/-!
Verification of the core of a page-oriented MVCC heap storage engine
(slotted pages, tuple headers, visibility predicates, transaction manager,
heap operations).  The definitions below are a shallow embedding of the
Rust sources (`page.rs`, `heap_tuple.rs`, `visibility.rs`, `transaction.rs`,
`heap.rs`, `storage.rs`, `constants.rs`): machine integers (`u8`, `u16`,
`u32`, `u64`) are modelled as `Nat` with explicit `% 2^w` where the source
can overflow, `Vec<u8>` byte images are modelled as a length plus an index
function (`ByteBuf`), small byte strings (tuple images, item bodies) as
`List Nat`, and fallible code returns `Except HeapError`.
-/

namespace PgCore

/-! ## Constants (`constants.rs`) -/

def BLCKSZ : Nat := 8192
def HEAP_PAGE_VERSION : Nat := 4
def HEAP_FIXED_HEADER_SIZE : Nat := 24
def INVALID_TRANSACTION_ID : Nat := 0
def BOOTSTRAP_TRANSACTION_ID : Nat := 1
def FIRST_NORMAL_TRANSACTION_ID : Nat := 2
def PD_ALL_VISIBLE : Nat := 0x0004
def PD_PAGE_FULL : Nat := 0x0002
def PD_HAS_FREE_LINES : Nat := 0x0001
def HEAP_HASNULL : Nat := 0x0001
def HEAP_XMIN_COMMITTED : Nat := 0x0100
def HEAP_XMIN_INVALID : Nat := 0x0200
def HEAP_XMAX_COMMITTED : Nat := 0x0400
def HEAP_XMAX_INVALID : Nat := 0x0800
def HEAP_XMAX_IS_LOCKED_ONLY : Nat := 0x1000
def HEAP_NATTS_MASK : Nat := 0x0FFF
def LP_USED : Nat := 1
def LP_DEAD : Nat := 2
def LP_NORMAL : Nat := 0

/-! ## Errors (`error.rs`) -/

inductive HeapError where
  | InvalidPage (msg : String)
  | InvalidTuple (msg : String)
  | NoFreeSpace
  | PageNotFound (block : Nat)
  | InvalidTransaction (msg : String)
  deriving DecidableEq, Repr

/-! ## Byte buffers

`Vec<u8>` page images are modelled as a size plus an index function;
`copy_from_slice` into a sub-range becomes a pointwise overwrite.  Small
byte strings stay `List Nat`. -/

structure ByteBuf where
  size : Nat
  get : Nat → Nat

/-- In-place overwrite of `bs.length` bytes starting at `off`
(`buf[off..off+bs.len()].copy_from_slice(bs)`). -/
def writeBytes (b : ByteBuf) (off : Nat) (bs : List Nat) : ByteBuf :=
  { size := b.size
    get := fun i => if off ≤ i ∧ i < off + bs.length then bs.getD (i - off) 0 else b.get i }

/-- Read `n` bytes starting at `off` (`&buf[off..off+n]`). -/
def readBytes (b : ByteBuf) (off n : Nat) : List Nat :=
  (List.range n).map (fun i => b.get (off + i))

def zeroBuf (n : Nat) : ByteBuf := { size := n, get := fun _ => 0 }

/-- Little-endian encoding of `v` in `w` bytes, as written by
`write_uN::<LittleEndian>`. -/
def toLe : Nat → Nat → List Nat
  | 0, _ => []
  | w + 1, v => v % 256 :: toLe w (v / 256)

/-- Little-endian decoding, as read by `read_uN::<LittleEndian>`. -/
def fromLe (bs : List Nat) : Nat := bs.foldr (fun b acc => b + 256 * acc) 0

/-- `sliceL l a n` is the `n`-byte sub-list of `l` starting at `a`. -/
def sliceL (l : List Nat) (a n : Nat) : List Nat := (l.drop a).take n

/-- Little-endian read of `w` bytes at offset `off` of a byte list. -/
def readLeL (l : List Nat) (off w : Nat) : Nat := fromLe (sliceL l off w)

/-- Little-endian read of `w` bytes at offset `off` of a buffer. -/
def readLe (b : ByteBuf) (off w : Nat) : Nat := fromLe (readBytes b off w)

/-! ## Basic byte lemmas -/

theorem toLe_length (w v : Nat) : (toLe w v).length = w := by
  induction w generalizing v with
  | zero => rfl
  | succ w ih => simp [toLe, ih]

theorem fromLe_toLe (w v : Nat) : fromLe (toLe w v) = v % 256 ^ w := by
  induction w generalizing v with
  | zero => simp [toLe, fromLe, Nat.mod_one]
  | succ w ih =>
    have h := ih (v / 256)
    simp only [toLe, fromLe, List.foldr] at h ⊢
    rw [h, Nat.pow_succ', Nat.mod_mul]

theorem fromLe_toLe_of_lt {w v : Nat} (h : v < 256 ^ w) : fromLe (toLe w v) = v := by
  rw [fromLe_toLe, Nat.mod_eq_of_lt h]

theorem toLe_lt_256 (w v : Nat) : ∀ x ∈ toLe w v, x < 256 := by
  induction w generalizing v with
  | zero => simp [toLe]
  | succ w ih =>
    intro x hx
    simp only [toLe, List.mem_cons] at hx
    rcases hx with h | h
    · omega
    · exact ih _ x h

theorem readBytes_length (b : ByteBuf) (off n : Nat) :
    (readBytes b off n).length = n := by
  simp [readBytes]

theorem readBytes_getD (b : ByteBuf) (off n i : Nat) (h : i < n) :
    (readBytes b off n).getD i 0 = b.get (off + i) := by
  simp [readBytes, List.getD_eq_getElem?_getD, List.getElem?_map, List.getElem?_range, h]

theorem writeBytes_size (b : ByteBuf) (off : Nat) (bs : List Nat) :
    (writeBytes b off bs).size = b.size := rfl

theorem writeBytes_get_inside (b : ByteBuf) (off : Nat) (bs : List Nat) (i : Nat)
    (h₁ : off ≤ i) (h₂ : i < off + bs.length) :
    (writeBytes b off bs).get i = bs.getD (i - off) 0 := by
  simp [writeBytes, h₁, h₂]

theorem writeBytes_get_outside (b : ByteBuf) (off : Nat) (bs : List Nat) (i : Nat)
    (h : i < off ∨ off + bs.length ≤ i) :
    (writeBytes b off bs).get i = b.get i := by
  simp only [writeBytes]
  split
  · omega
  · rfl

theorem sliceL_length (l : List Nat) (a n : Nat) :
    (sliceL l a n).length = min n (l.length - a) := by
  simp [sliceL]

theorem sliceL_getElem (l : List Nat) (a n i : Nat) (h : i < (sliceL l a n).length) :
    (sliceL l a n)[i] = l.get ⟨a + i, by simp [sliceL_length] at h; omega⟩ := by
  simp only [sliceL]
  rw [List.getElem_take, List.getElem_drop]
  rfl

theorem readBytes_writeBytes_inside (b : ByteBuf) (off : Nat) (bs : List Nat)
    (off' n : Nat) (h₁ : off ≤ off') (h₂ : off' + n ≤ off + bs.length) :
    readBytes (writeBytes b off bs) off' n = sliceL bs (off' - off) n := by
  apply List.ext_getElem
  · rw [readBytes_length, sliceL_length]; omega
  · intro i hi hj
    simp only [readBytes, List.getElem_map, List.getElem_range]
    rw [writeBytes_get_inside b off bs _ (by omega)
        (by rw [readBytes_length] at hi; omega)]
    rw [sliceL_getElem _ _ _ _ hj]
    rw [List.getD_eq_getElem?_getD,
        List.getElem?_eq_getElem (by rw [sliceL_length] at hj; omega)]
    simp only [Option.getD_some]
    congr 1
    omega

theorem readBytes_writeBytes_outside (b : ByteBuf) (off : Nat) (bs : List Nat)
    (off' n : Nat) (h : off' + n ≤ off ∨ off + bs.length ≤ off') :
    readBytes (writeBytes b off bs) off' n = readBytes b off' n := by
  apply List.ext_getElem
  · simp [readBytes_length]
  · intro i hi hj
    rw [readBytes_length] at hi
    simp only [readBytes, List.getElem_map, List.getElem_range]
    rw [writeBytes_get_outside b off bs _ (by omega)]

/-! ## Page header (`page.rs`, `PageHeaderData`) -/

structure PageHeaderData where
  pd_lsn : Nat
  pd_checksum : Nat
  pd_flags : Nat
  pd_lower : Nat
  pd_upper : Nat
  pd_special : Nat
  pd_pagesize_version : Nat
  pd_prune_xid : Nat
  deriving DecidableEq, Repr

/-- 16-bit mask-clearing `flags &= !mask` (flags and mask are `u16`). -/
def clear16 (flags mask : Nat) : Nat := flags.land (mask.xor 0xFFFF)

namespace PageHeaderData

/-- `PageHeaderData::new(size)`.  `(size as u16) << 4 | HEAP_PAGE_VERSION`
wraps at 16 bits (for size 8192 the shift overflows `u16` to 0). -/
def new (size : Nat) : PageHeaderData :=
  { pd_lsn := 0
    pd_checksum := 0
    pd_flags := 0
    pd_lower := 24
    pd_upper := size % 65536
    pd_special := size % 65536
    pd_pagesize_version := ((size % 65536) * 16 % 65536).lor HEAP_PAGE_VERSION
    pd_prune_xid := 0 }

def size : Nat := 24

def has_free_lines (h : PageHeaderData) : Bool := h.pd_flags.land PD_HAS_FREE_LINES != 0

def set_has_free_lines (h : PageHeaderData) (has : Bool) : PageHeaderData :=
  if has then { h with pd_flags := h.pd_flags.lor PD_HAS_FREE_LINES }
  else { h with pd_flags := clear16 h.pd_flags PD_HAS_FREE_LINES }

def is_page_full (h : PageHeaderData) : Bool := h.pd_flags.land PD_PAGE_FULL != 0

def set_page_full (h : PageHeaderData) (full : Bool) : PageHeaderData :=
  if full then { h with pd_flags := h.pd_flags.lor PD_PAGE_FULL }
  else { h with pd_flags := clear16 h.pd_flags PD_PAGE_FULL }

def all_visible (h : PageHeaderData) : Bool := h.pd_flags.land PD_ALL_VISIBLE != 0

/-- `free_space`: `(pd_upper - pd_lower) as usize` (u16 subtraction;
callers keep `pd_lower ≤ pd_upper`, so truncated subtraction is exact). -/
def free_space (h : PageHeaderData) : Nat := h.pd_upper - h.pd_lower

/-- The 24 bytes written by `PageHeaderData::serialize` (little-endian
field order; byte 23 is the cursor's untouched zero pad). -/
def serializeBytes (h : PageHeaderData) : List Nat :=
  toLe 8 h.pd_lsn ++ toLe 2 h.pd_checksum ++ toLe 2 h.pd_flags ++
  toLe 2 h.pd_lower ++ toLe 2 h.pd_upper ++ toLe 2 h.pd_special ++
  toLe 2 h.pd_pagesize_version ++ toLe 4 h.pd_prune_xid

/-- `PageHeaderData::deserialize` over a byte list. -/
def deserializeBytes (buf : List Nat) : Except HeapError PageHeaderData :=
  if buf.length < 24 then .error (.InvalidPage "buffer too small")
  else .ok
    { pd_lsn := readLeL buf 0 8
      pd_checksum := readLeL buf 8 2
      pd_flags := readLeL buf 10 2
      pd_lower := readLeL buf 12 2
      pd_upper := readLeL buf 14 2
      pd_special := readLeL buf 16 2
      pd_pagesize_version := readLeL buf 18 2
      pd_prune_xid := readLeL buf 20 4 }

end PageHeaderData

/-! ## Item identifiers (`page.rs`, `ItemIdData`) -/

structure ItemIdData where
  bits : Nat
  deriving DecidableEq, Repr

namespace ItemIdData

/-- `ItemIdData::set`: offset 15 bits, length 15 bits, status 2 bits. -/
def set (off len flags : Nat) : ItemIdData :=
  { bits := (off.land 0x7FFF).lor (((len.land 0x7FFF)) <<< 15 |>.lor ((flags.land 0x3) <<< 30)) }

def offset (id : ItemIdData) : Nat := id.bits.land 0x7FFF

def length (id : ItemIdData) : Nat := (id.bits >>> 15).land 0x7FFF

def flags (id : ItemIdData) : Nat := id.bits >>> 30

def is_used (id : ItemIdData) : Bool := id.flags == LP_USED

def is_dead (id : ItemIdData) : Bool := id.flags == LP_DEAD

end ItemIdData

/-! ## Pages (`page.rs`, `Page`) -/

structure Page where
  header : PageHeaderData
  item_id_data : List ItemIdData
  data : ByteBuf
  page_size : Nat

namespace Page

def new (page_size : Nat) : Page :=
  { header := PageHeaderData.new page_size
    item_id_data := []
    data := zeroBuf page_size
    page_size := page_size }

/-- `Page::from_raw(data)`. -/
def from_raw (data : ByteBuf) : Except HeapError Page :=
  if data.size < BLCKSZ then .error (.InvalidPage "page size too small")
  else match PageHeaderData.deserializeBytes (readBytes data 0 24) with
  | .error e => .error e
  | .ok header =>
    if header.pd_lower < 24 ∨ header.pd_upper > data.size ∨ header.pd_lower > header.pd_upper then
      .error (.InvalidPage "invalid page layout")
    else
      let item_id_count := (header.pd_lower - 24) / 4
      let item_id_data := (List.range item_id_count).map
        (fun i => ItemIdData.mk (readLe data (24 + i * 4) 4))
      .ok { header, item_id_data, data, page_size := data.size }

/-- `Page::get_item(offset)` (1-based offset number). -/
def get_item (p : Page) (offset : Nat) : Option (List Nat) :=
  let offset_idx := offset - 1
  if h : offset_idx < p.item_id_data.length then
    let item_id := p.item_id_data.get ⟨offset_idx, h⟩
    if !item_id.is_used then none
    else
      let off := item_id.offset
      let len := item_id.length
      if off + len > p.page_size then none
      else some (readBytes p.data off len)
  else none

/-- Models `get_item_mut(offset)` followed by
`tuple_data[..bytes.len()].copy_from_slice(&bytes)`: an in-place
overwrite of the item body's prefix when the item is accessible. -/
def write_item (p : Page) (offset : Nat) (bytes : List Nat) : Page :=
  let offset_idx := offset - 1
  if h : offset_idx < p.item_id_data.length then
    let item_id := p.item_id_data.get ⟨offset_idx, h⟩
    if !item_id.is_used then p
    else
      let off := item_id.offset
      let len := item_id.length
      if off + len > p.page_size then p
      else { p with data := writeBytes p.data off bytes }
  else p

/-- `Page::add_item(data) -> offset` (1-based). -/
def add_item (p : Page) (bytes : List Nat) : Except HeapError (Nat × Page) :=
  let item_len := bytes.length
  if p.header.free_space < item_len + 4 then
    .error .NoFreeSpace
  else
    let new_offset := p.header.pd_upper - item_len
    let new_item_id_idx := p.item_id_data.length
    let header := { p.header with pd_upper := new_offset,
                                  pd_lower := p.header.pd_lower + 4 }
    let data := writeBytes p.data new_offset bytes
    let item_id := ItemIdData.set new_offset item_len LP_USED
    let header := header.set_has_free_lines false
    let header := header.set_page_full (decide (header.free_space < 32))
    .ok (new_item_id_idx + 1,
         { p with header := header,
                  item_id_data := p.item_id_data ++ [item_id],
                  data := data })

/-- `Page::remove_item(offset)`: marks the item DEAD and, when the removed
body was the lowest one, lifts `pd_upper` past it. -/
def remove_item (p : Page) (offset : Nat) : Except HeapError Page :=
  let offset_idx := offset - 1
  if h : offset_idx < p.item_id_data.length then
    let item_id := p.item_id_data.get ⟨offset_idx, h⟩
    let off := item_id.offset
    let len := item_id.length
    let item_id' := ItemIdData.mk (LP_DEAD <<< 30)
    let new_upper := off + len
    let header :=
      if new_upper > p.header.pd_upper then { p.header with pd_upper := new_upper }
      else p.header
    let header := header.set_has_free_lines true
    .ok { p with header := header,
                 item_id_data := p.item_id_data.set offset_idx item_id' }
  else .error (.InvalidTuple "invalid offset")

def item_count (p : Page) : Nat := p.item_id_data.length

def free_space (p : Page) : Nat := p.header.free_space

/-- `Page::serialize()`: header at 0, item ids at `24 + 4*i`, then the
byte range `[pd_upper, page_size)` of the body area. -/
def serialize (p : Page) : ByteBuf :=
  let buf := zeroBuf p.page_size
  let buf := writeBytes buf 0 p.header.serializeBytes
  let buf := writeIds buf p.item_id_data 24
  let data_start := p.header.pd_upper
  let data_end := p.page_size
  if data_start < data_end then
    writeBytes buf data_start (readBytes p.data data_start (data_end - data_start))
  else buf
where
  writeIds (buf : ByteBuf) : List ItemIdData → Nat → ByteBuf
    | [], _ => buf
    | id :: rest, pos => writeIds (writeBytes buf pos (toLe 4 id.bits)) rest (pos + 4)

end Page

/-! ## Value types (`types.rs`) -/

structure ItemPointerData where
  block_number : Nat
  offset_number : Nat
  deriving DecidableEq, Repr

def ItemPointerData.invalid : ItemPointerData := ⟨0, 0⟩

inductive VisibilityMode where
  | MVCC | Self_ | Any | Stable
  deriving DecidableEq, Repr

structure Snapshot where
  xmin : Nat
  xmax : Nat
  xip : List Nat
  curcid : Nat
  mode : VisibilityMode
  deriving DecidableEq, Repr

/-! ## Tuple headers (`heap_tuple.rs`) -/

structure HeapTupleHeaderData where
  t_xmin : Nat
  t_xmax : Nat
  t_cid : Nat
  t_ctid : ItemPointerData
  t_infomask2 : Nat
  t_infomask : Nat
  t_hoff : Nat
  deriving DecidableEq, Repr

namespace HeapTupleHeaderData

def compute_hoff (natts : Nat) (has_null : Bool) : Nat :=
  let off := HEAP_FIXED_HEADER_SIZE + (if has_null then (natts + 7) / 8 else 0)
  (off + 7) / 8 * 8

def new (natts : Nat) : HeapTupleHeaderData :=
  { t_xmin := INVALID_TRANSACTION_ID
    t_xmax := INVALID_TRANSACTION_ID
    t_cid := 0
    t_ctid := ItemPointerData.invalid
    t_infomask2 := natts
    t_infomask := 0
    t_hoff := compute_hoff natts false }

def has_null (h : HeapTupleHeaderData) : Bool := h.t_infomask.land HEAP_HASNULL != 0

def xmin_committed (h : HeapTupleHeaderData) : Bool := h.t_infomask.land HEAP_XMIN_COMMITTED != 0

def xmin_invalid (h : HeapTupleHeaderData) : Bool := h.t_infomask.land HEAP_XMIN_INVALID != 0

def xmax_committed (h : HeapTupleHeaderData) : Bool := h.t_infomask.land HEAP_XMAX_COMMITTED != 0

def xmax_invalid (h : HeapTupleHeaderData) : Bool := h.t_infomask.land HEAP_XMAX_INVALID != 0

def xmax_is_locked_only (h : HeapTupleHeaderData) : Bool :=
  h.t_infomask.land HEAP_XMAX_IS_LOCKED_ONLY != 0

/-- The 23 bytes written by `HeapTupleHeaderData::serialize` (the 24th
header byte is the buffer's zero pad). -/
def serializeBytes (h : HeapTupleHeaderData) : List Nat :=
  toLe 4 h.t_xmin ++ toLe 4 h.t_xmax ++ toLe 4 h.t_cid ++
  toLe 4 h.t_ctid.block_number ++ toLe 2 h.t_ctid.offset_number ++
  toLe 2 h.t_infomask2 ++ toLe 2 h.t_infomask ++ toLe 1 h.t_hoff

/-- `HeapTupleHeaderData::deserialize`. -/
def deserializeBytes (buf : List Nat) : Except HeapError HeapTupleHeaderData :=
  if buf.length < HEAP_FIXED_HEADER_SIZE then .error (.InvalidTuple "buffer too small")
  else .ok
    { t_xmin := readLeL buf 0 4
      t_xmax := readLeL buf 4 4
      t_cid := readLeL buf 8 4
      t_ctid := { block_number := readLeL buf 12 4, offset_number := readLeL buf 16 2 }
      t_infomask2 := readLeL buf 18 2
      t_infomask := readLeL buf 20 2
      t_hoff := readLeL buf 22 1 }

end HeapTupleHeaderData

/-! ## Tuples (`heap_tuple.rs`, `HeapTuple`) -/

structure HeapTuple where
  header : HeapTupleHeaderData
  null_bitmap : Option (List Nat)
  data : List Nat
  deriving DecidableEq, Repr

namespace HeapTuple

/-- `HeapTuple::with_data(natts, data, has_null)`. -/
def with_data (natts : Nat) (data : List Nat) (hasNullArg : Bool) : HeapTuple :=
  let header := HeapTupleHeaderData.new natts
  let header := if hasNullArg then { header with t_infomask := header.t_infomask.lor HEAP_HASNULL }
                else header
  let null_bitmap := if hasNullArg ∧ natts > 0 then some (List.replicate ((natts + 7) / 8) 0)
                     else none
  { header, null_bitmap, data }

/-- `HeapTuple::size()`. -/
def tupleSize (t : HeapTuple) : Nat :=
  let s := HEAP_FIXED_HEADER_SIZE +
    (if t.header.has_null then (match t.null_bitmap with
                                | some bm => bm.length
                                | none => 0)
     else 0)
  (s + 7) / 8 * 8 + t.data.length

/-- `HeapTuple::serialize()` as a byte list of length `tupleSize`. -/
def serialize (t : HeapTuple) : List Nat :=
  let buf := zeroBuf t.tupleSize
  let buf := writeBytes buf 0 t.header.serializeBytes
  let offset := HEAP_FIXED_HEADER_SIZE
  let (buf, offset) := match t.null_bitmap with
    | some bm => (writeBytes buf offset bm, offset + bm.length)
    | none => (buf, offset)
  let offset := (offset + 7) / 8 * 8
  let buf := writeBytes buf offset t.data
  readBytes buf 0 t.tupleSize

/-- `HeapTuple::deserialize(buf, natts)`. -/
def deserialize (buf : List Nat) (natts : Nat) : Except HeapError HeapTuple :=
  if buf.length < HEAP_FIXED_HEADER_SIZE then .error (.InvalidTuple "buffer too small")
  else match HeapTupleHeaderData.deserializeBytes buf with
  | .error e => .error e
  | .ok header =>
    let has_null := header.has_null
    let null_bitmap_size := if has_null then (natts + 7) / 8 else 0
    let offset := HEAP_FIXED_HEADER_SIZE
    let null_bitmap := if has_null ∧ buf.length ≥ offset + null_bitmap_size then
        some (sliceL buf offset null_bitmap_size)
      else none
    let offset := offset + null_bitmap_size
    let offset := (offset + 7) / 8 * 8
    let data := if offset < buf.length then buf.drop offset else []
    .ok { header, null_bitmap, data }

def xmin (t : HeapTuple) : Nat := t.header.t_xmin

def xmax (t : HeapTuple) : Nat := t.header.t_xmax

def cid (t : HeapTuple) : Nat := t.header.t_cid

end HeapTuple

/-! ## Visibility predicates (`visibility.rs`) -/

namespace Visibility

/-- `Visibility::heap_tuple_satisfiesvisibility` (the MVCC creation test). -/
def heap_tuple_satisfiesvisibility (t : HeapTuple) (snapshot : Snapshot) (cur_xid : Nat) : Bool :=
  if t.xmin = cur_xid then true
  else if t.xmin ≥ snapshot.xmin ∧ t.xmin < snapshot.xmax then
    if t.header.xmin_committed then true
    else if t.header.xmin_invalid then false
    else if t.xmin ∈ snapshot.xip then false
    else true
  else if t.xmin < snapshot.xmin then
    if t.header.xmin_committed then true
    else if t.header.xmin_invalid then false
    else true
  else false

/-- `Visibility::heap_txns_satisfies_update` (the MVCC obsolescence test). -/
def heap_txns_satisfies_update (t : HeapTuple) (snapshot : Snapshot) (cur_xid : Nat) : Bool :=
  if t.xmax = 0 then true
  else if t.xmax = cur_xid then
    if t.header.xmax_is_locked_only then true else false
  else if t.xmax ≥ snapshot.xmax then true
  else if t.xmax < snapshot.xmin then
    if t.header.xmax_committed then false
    else if t.header.xmax_invalid then true
    else false
  else if t.header.xmax_committed then false
  else if t.header.xmax_invalid then true
  else if t.header.xmax_is_locked_only then true
  else false

/-- `Visibility::heap_tuple_satisfies_mvcc`. -/
def heap_tuple_satisfies_mvcc (t : HeapTuple) (snapshot : Snapshot) (cur_xid : Nat) : Bool :=
  if !heap_tuple_satisfiesvisibility t snapshot cur_xid then false
  else if !heap_txns_satisfies_update t snapshot cur_xid then false
  else true

/-- `Visibility::heap_tuple_satisfies_any`. -/
def heap_tuple_satisfies_any (t : HeapTuple) : Bool :=
  let xmax := t.xmax
  if xmax ≠ 0 then
    if t.header.xmax_committed then false
    else if t.header.xmax_invalid then true
    else if t.header.xmax_is_locked_only then true
    else true
  else true

/-- `Visibility::heap_tuple_satisfies_self`. -/
def heap_tuple_satisfies_self (t : HeapTuple) (cur_xid cur_cid : Nat) : Bool :=
  let xmin := t.xmin
  let xmax := t.xmax
  if xmin = cur_xid ∧ t.cid > cur_cid then false
  else if xmax = cur_xid then
    if t.header.xmax_is_locked_only then true else false
  else if xmax = 0 then true
  else if t.header.xmax_committed then false
  else true

/-- `Visibility::heap_tuple_satisfies_stable`. -/
def heap_tuple_satisfies_stable (t : HeapTuple) (snapshot : Snapshot) : Bool :=
  let xmin := t.xmin
  let xmax := t.xmax
  if xmin ≥ snapshot.xmin ∧ xmin < snapshot.xmax then
    if t.header.xmin_committed then true
    else false
  else if xmin < snapshot.xmin then
    if t.header.xmin_committed then true
    else false
  else if xmax = 0 then true
  else if xmax ≥ snapshot.xmin ∧ xmax < snapshot.xmax then
    if t.header.xmax_committed then false
    else if t.header.xmax_invalid then true
    else false
  else if xmax < snapshot.xmin then
    if t.header.xmax_committed then false
    else if t.header.xmax_invalid then true
    else false
  else true

end Visibility

/-! ## Transaction manager (`transaction.rs`) -/

structure TransactionManagerState where
  current_xid : Nat
  next_cid : Nat
  committed : List (Nat × Bool)
  in_progress : List Nat
  deriving DecidableEq, Repr

namespace TransactionManagerState

/-- `TransactionManager::new()`. -/
def init : TransactionManagerState :=
  { current_xid := FIRST_NORMAL_TRANSACTION_ID
    next_cid := 1
    committed := []
    in_progress := [] }

/-- `HashMap::insert` (latest binding wins on lookup). -/
def insertCommitted (m : List (Nat × Bool)) (k : Nat) (v : Bool) : List (Nat × Bool) :=
  (k, v) :: m

def lookupCommitted (m : List (Nat × Bool)) (k : Nat) : Option Bool :=
  (m.find? (fun e => e.1 == k)).map (fun e => e.2)

/-- `TransactionManager::begin()`: allocate the current xid, advance, push. -/
def beginTx (tm : TransactionManagerState) : Nat × TransactionManagerState :=
  let new_xid := tm.current_xid
  (new_xid, { tm with current_xid := new_xid + 1,
                      in_progress := tm.in_progress ++ [new_xid] })

/-- `TransactionManager::commit(xid)`. -/
def commit (tm : TransactionManagerState) (xid : Nat) : TransactionManagerState :=
  { tm with committed := insertCommitted tm.committed xid true,
            in_progress := tm.in_progress.filter (fun x => x ≠ xid) }

/-- `TransactionManager::abort(xid)`. -/
def abort (tm : TransactionManagerState) (xid : Nat) : TransactionManagerState :=
  { tm with committed := insertCommitted tm.committed xid false,
            in_progress := tm.in_progress.filter (fun x => x ≠ xid) }

/-- `TransactionManager::get_cid()`. -/
def get_cid (tm : TransactionManagerState) : Nat × TransactionManagerState :=
  (tm.next_cid, { tm with next_cid := tm.next_cid + 1 })

/-- `TransactionManager::is_committed(xid)`. -/
def is_committed (tm : TransactionManagerState) (xid : Nat) : Bool :=
  if xid = INVALID_TRANSACTION_ID then false
  else if xid = BOOTSTRAP_TRANSACTION_ID then true
  else (lookupCommitted tm.committed xid).getD false

/-- `Iterator::min()` over the in-progress list. -/
def listMin : List Nat → Option Nat
  | [] => none
  | x :: xs => some (match listMin xs with
                     | none => x
                     | some m => min x m)

/-- `TransactionManager::get_snapshot(current_cid)`. -/
def get_snapshot (tm : TransactionManagerState) (current_cid : Nat) : Snapshot :=
  let xid := tm.current_xid
  let xmin := if tm.in_progress.isEmpty then xid - 1
              else (listMin tm.in_progress).getD (xid - 1)
  { xmin := xmin
    xmax := xid
    xip := tm.in_progress
    curcid := current_cid
    mode := .MVCC }

end TransactionManagerState

/-- `Transaction::commit(self)` as the manager sees it: the body calls
`manager.commit(xid)` and then, the thread not panicking, the `Drop`
impl of the consumed value runs and calls `manager.abort(xid)`. -/
def Transaction.commitRun (tm : TransactionManagerState) (xid : Nat) : TransactionManagerState :=
  (tm.commit xid).abort xid

/-- `Transaction::abort(self)` followed by the `Drop` impl. -/
def Transaction.abortRun (tm : TransactionManagerState) (xid : Nat) : TransactionManagerState :=
  (tm.abort xid).abort xid

/-! ## Storage (`storage.rs`)

The write-back cache and the per-block files always hold the same bytes
(every write updates both, every read that misses the cache loads the
identical file bytes), so both are modelled by one partial map from block
number to page image. -/

structure StorageState where
  pages : Nat → Option ByteBuf
  max_block : Nat

namespace StorageState

/-- `Storage::read_page(n)`. -/
def read_page (s : StorageState) (block_num : Nat) : Except HeapError Page :=
  match s.pages block_num with
  | some data => Page.from_raw data
  | none => .error (.PageNotFound block_num)

/-- `Storage::write_page(n, page)`. -/
def write_page (s : StorageState) (block_num : Nat) (p : Page) : StorageState :=
  { pages := fun b => if b = block_num then some p.serialize else s.pages b
    max_block := if block_num > s.max_block then block_num else s.max_block }

/-- `Storage::allocate_page()`. -/
def allocate_page (s : StorageState) : Nat × StorageState :=
  let new_block := s.max_block + 1
  (new_block, s.write_page new_block (Page.new BLCKSZ))

/-- `Storage::page_count()`. -/
def page_count (s : StorageState) : Nat :=
  if s.max_block = 0 ∧ (s.pages 0).isNone then 0 else s.max_block + 1

end StorageState

/-! ## Heap operations (`heap.rs`, `HeapRelation`)

A `HeapRelation` is its `natts` plus the storage state; each operation
threads the storage state explicitly. -/

namespace HeapRelation

/-- `HeapRelation::create` (ignoring the on-disk path and the random
relation node id): writes an empty page at block 0. -/
def create : StorageState :=
  StorageState.write_page { pages := fun _ => none, max_block := 0 } 0 (Page.new BLCKSZ)

/-- The page-search loop at the top of `HeapRelation::insert`. -/
def findFree (s : StorageState) (need : Nat) : List Nat → Except HeapError (Option Nat)
  | [] => .ok none
  | bn :: rest => do
    let page ← s.read_page bn
    if page.free_space ≥ need then pure (some bn) else findFree s need rest

/-- `HeapRelation::insert(xid, cid, data)`. -/
def insert (natts xid cid : Nat) (data : List Nat) (s : StorageState) :
    Except HeapError (ItemPointerData × StorageState) := do
  let tuple_size := HEAP_FIXED_HEADER_SIZE + data.length
  let page_count := s.page_count
  let found ← findFree s (tuple_size + 4) (List.range page_count)
  let found ← match found with
    | some bn => pure (some bn)
    | none =>
      if page_count > 0 then do
        let last_page ← s.read_page (page_count - 1)
        if last_page.free_space ≥ tuple_size + 4 then pure (some (page_count - 1))
        else pure (none : Option Nat)
      else pure none
  let (block_num, s) := match found with
    | some bn => (bn, s)
    | none => s.allocate_page
  let page ← s.read_page block_num
  let t := HeapTuple.with_data natts data false
  let t := { t with header := { t.header with
    t_xmin := xid, t_xmax := 0, t_cid := cid,
    t_ctid := ⟨block_num, 0⟩ } }
  let serialized := t.serialize
  let (offset, page) ← page.add_item serialized
  let t := { t with header := { t.header with t_ctid := ⟨block_num, offset⟩ } }
  let serialized := t.serialize
  let page := page.write_item offset serialized
  let s := s.write_page block_num page
  pure (⟨block_num, offset⟩, s)

/-- `HeapRelation::update(xid, cid, old_ctid, new_data)`.  Note that the
old page image read *before* the nested insert is the one written back. -/
def update (natts xid cid : Nat) (old_ctid : ItemPointerData) (new_data : List Nat)
    (s : StorageState) : Except HeapError (Option ItemPointerData × StorageState) := do
  let old_page ← s.read_page old_ctid.block_number
  let old_tuple_data ← match old_page.get_item old_ctid.offset_number with
    | some d => pure d
    | none => throw (.InvalidTuple "failed to get old item")
  let old_tuple ← HeapTuple.deserialize old_tuple_data natts
  if old_tuple.xmax ≠ 0 then
    pure (none, s)
  else do
    let old_tuple := { old_tuple with header := { old_tuple.header with
      t_xmax := xid, t_cid := cid } }
    let (new_ctid, s) ← insert natts xid cid new_data s
    let old_tuple := { old_tuple with header := { old_tuple.header with t_ctid := new_ctid } }
    let serialized := old_tuple.serialize
    let old_page ← match old_page.get_item old_ctid.offset_number with
      | some _ => pure (old_page.write_item old_ctid.offset_number serialized)
      | none => throw (.InvalidTuple "failed to get old item for update")
    let s := s.write_page old_ctid.block_number old_page
    pure (some new_ctid, s)

/-- `HeapRelation::delete(xid, cid, ctid)`. -/
def delete (natts xid cid : Nat) (ctid : ItemPointerData) (s : StorageState) :
    Except HeapError (Bool × StorageState) := do
  let page ← s.read_page ctid.block_number
  let tuple_data ← match page.get_item ctid.offset_number with
    | some d => pure d
    | none => throw (.InvalidTuple "failed to get item for delete")
  let t ← HeapTuple.deserialize tuple_data natts
  if t.xmax ≠ 0 then
    pure (false, s)
  else do
    let t := { t with header := { t.header with t_xmax := xid, t_cid := cid } }
    let serialized := t.serialize
    let page ← match page.get_item ctid.offset_number with
      | some _ => pure (page.write_item ctid.offset_number serialized)
      | none => throw (.InvalidTuple "failed to get item for delete")
    let s := s.write_page ctid.block_number page
    pure (true, s)

/-- `HeapRelation::get(ctid)`. -/
def get (natts : Nat) (ctid : ItemPointerData) (s : StorageState) :
    Except HeapError (Option HeapTuple) := do
  let page ← s.read_page ctid.block_number
  match page.get_item ctid.offset_number with
  | some data => do
    let t ← HeapTuple.deserialize data natts
    pure (some t)
  | none => pure none

/-- One page of `HeapRelation::scan`. -/
def scanPage (natts : Nat) (snapshot : Snapshot) (cur_xid block_num : Nat) (p : Page) :
    List (ItemPointerData × HeapTuple) :=
  (List.range p.item_count).filterMap (fun offset_idx =>
    let offset := offset_idx + 1
    match p.get_item offset with
    | none => none
    | some tuple_data =>
      match HeapTuple.deserialize tuple_data natts with
      | .error _ => none
      | .ok t =>
        let visible := match snapshot.mode with
          | .Any => Visibility.heap_tuple_satisfies_any t
          | .Self_ => Visibility.heap_tuple_satisfies_self t cur_xid snapshot.curcid
          | .Stable => Visibility.heap_tuple_satisfies_stable t snapshot
          | .MVCC => Visibility.heap_tuple_satisfies_mvcc t snapshot cur_xid
        if visible then some (⟨block_num, offset⟩, t) else none)

/-- `HeapRelation::scan(snapshot, cur_xid)`. -/
def scan (natts : Nat) (snapshot : Snapshot) (cur_xid : Nat) (s : StorageState) :
    Except HeapError (List (ItemPointerData × HeapTuple)) := do
  (List.range s.page_count).foldlM
    (fun results block_num => do
      let page ← s.read_page block_num
      pure (results ++ scanPage natts snapshot cur_xid block_num page))
    []

/-- The inner item loop of `HeapRelation::vacuum`; `removed` is the
relation-wide running count. -/
def vacuumItems (natts : Nat) : List Nat → Page → Nat → Except HeapError (Page × Nat)
  | [], page, removed => .ok (page, removed)
  | offset_idx :: rest, page, removed =>
    let offset := offset_idx + 1
    match page.get_item offset with
    | some tuple_data =>
      match HeapTuple.deserialize tuple_data natts with
      | .ok t =>
        if t.xmax ≠ 0 then do
          let page ← page.remove_item offset
          vacuumItems natts rest page (removed + 1)
        else vacuumItems natts rest page removed
      | .error _ => vacuumItems natts rest page removed
    | none => vacuumItems natts rest page removed

/-- `HeapRelation::vacuum()`: each block is written back when the
*cumulative* removed count is positive. -/
def vacuum (natts : Nat) (s : StorageState) : Except HeapError (Nat × StorageState) := do
  (List.range s.page_count).foldlM
    (fun (acc : Nat × StorageState) block_num => do
      let (removed, s') := acc
      let page ← s'.read_page block_num
      let (page, removed) ← vacuumItems natts (List.range page.item_count) page removed
      let s' := if removed > 0 then s'.write_page block_num page else s'
      pure (removed, s'))
    (0, s)

end HeapRelation

/-! ## The engine wrapper (`heap.rs`, `HeapEngine`)

`current_tx` is the optional `(xid, cid)` of the cloned `Transaction`
held by the engine. -/

structure HeapEngineState where
  natts : Nat
  storage : StorageState
  tm : TransactionManagerState
  current_tx : Option (Nat × Nat)

namespace HeapEngineState

/-- `HeapEngine::commit()`: `take()` the transaction and run
`Transaction::commit` (whose consumed value is then dropped). -/
def commit (e : HeapEngineState) : HeapEngineState :=
  match e.current_tx with
  | some (xid, _) => { e with tm := Transaction.commitRun e.tm xid, current_tx := none }
  | none => e

/-- `HeapEngine::scan()`: with no active transaction the snapshot is taken
at `CommandId::invalid()` (0) and visibility is evaluated at
`TransactionId::first_normal()` (2). -/
def scan (e : HeapEngineState) : Except HeapError (List (ItemPointerData × HeapTuple)) :=
  let current_cid := match e.current_tx with
    | some (_, cid) => cid
    | none => 0
  let snapshot := e.tm.get_snapshot current_cid
  let cur_xid := match e.current_tx with
    | some (xid, _) => xid
    | none => FIRST_NORMAL_TRANSACTION_ID
  HeapRelation.scan e.natts snapshot cur_xid e.storage

end HeapEngineState

instance {ε α : Type} [DecidableEq ε] [DecidableEq α] : DecidableEq (Except ε α) := fun
  | .ok a, .ok b => if h : a = b then .isTrue (by rw [h]) else .isFalse (by simp [h])
  | .ok _, .error _ => .isFalse (by simp)
  | .error _, .ok _ => .isFalse (by simp)
  | .error a, .error b => if h : a = b then .isTrue (by rw [h]) else .isFalse (by simp [h])

/-! ## The spec's MVCC reference decision procedure (§4.5)

These two definitions transcribe the spec's case analysis word for word;
they exist only to be compared with the code's
`Visibility::heap_tuple_satisfies_mvcc` above. -/

/-- §4.5 creation test, as written in the spec.  In the `T.xmin < S.xmin`
case the spec says only "Respect `XMIN_INVALID`; otherwise visible". -/
def creationTestSpec (t : HeapTuple) (s : Snapshot) (c : Nat) : Bool :=
  if t.xmin = c then true
  else if t.xmin ≥ s.xmin ∧ t.xmin < s.xmax then
    if t.header.xmin_committed then true
    else if t.header.xmin_invalid then false
    else if t.xmin ∈ s.xip then false
    else true
  else if t.xmin < s.xmin then
    if t.header.xmin_invalid then false else true
  else false

/-- §4.5 obsolescence test, as written in the spec. -/
def obsolescenceTestSpec (t : HeapTuple) (s : Snapshot) (c : Nat) : Bool :=
  if t.xmax = 0 then true
  else if t.xmax = c then
    if t.header.xmax_is_locked_only then true else false
  else if t.xmax ≥ s.xmax then true
  else if t.xmax < s.xmin then
    if t.header.xmax_committed then false
    else if t.header.xmax_invalid then true
    else false
  else
    if t.header.xmax_committed then false
    else if t.header.xmax_invalid ∨ t.header.xmax_is_locked_only then true
    else false

/-- §4.5: "A tuple is visible iff both of the following hold". -/
def mvccSpec (t : HeapTuple) (s : Snapshot) (c : Nat) : Bool :=
  creationTestSpec t s c && obsolescenceTestSpec t s c

/-! ## Further byte lemmas -/

theorem sliceL_readBytes (b : ByteBuf) (off n a w : Nat) (h : a + w ≤ n) :
    sliceL (readBytes b off n) a w = readBytes b (off + a) w := by
  apply List.ext_getElem
  · rw [sliceL_length, readBytes_length, readBytes_length]; omega
  · intro i hi hj
    rw [sliceL_getElem _ _ _ _ hi]
    simp only [List.get_eq_getElem, readBytes, List.getElem_map, List.getElem_range]
    congr 1
    omega

theorem readLeL_readBytes (b : ByteBuf) (off n a w : Nat) (h : a + w ≤ n) :
    readLeL (readBytes b off n) a w = readLe b (off + a) w := by
  rw [readLeL, sliceL_readBytes b off n a w h, readLe]

theorem readLeL_append_skip (xs ys : List Nat) (off w : Nat) :
    readLeL (xs ++ ys) (xs.length + off) w = readLeL ys off w := by
  simp [readLeL, sliceL, List.drop_append]

theorem readLeL_skip (v wv : Nat) (ys : List Nat) (off w : Nat) (h : wv ≤ off) :
    readLeL (toLe wv v ++ ys) off w = readLeL ys (off - wv) w := by
  have heq : off = (toLe wv v).length + (off - wv) := by rw [toLe_length]; omega
  nth_rewrite 1 [heq]
  rw [readLeL_append_skip]

theorem readLeL_head (v wv : Nat) (ys : List Nat) (hv : v < 256 ^ wv) :
    readLeL (toLe wv v ++ ys) 0 wv = v := by
  have : sliceL (toLe wv v ++ ys) 0 wv = toLe wv v := by
    simp [sliceL, List.take_append_eq_append_take, toLe_length]
  rw [readLeL, this, fromLe_toLe_of_lt hv]

theorem readLeL_nil_head (v wv : Nat) (hv : v < 256 ^ wv) :
    readLeL (toLe wv v) 0 wv = v := by
  simp [readLeL, sliceL, List.take_of_length_le (le_of_eq (toLe_length wv v)), fromLe_toLe_of_lt hv]

theorem sliceL_all (l : List Nat) (n : Nat) (h : l.length = n) : sliceL l 0 n = l := by
  simp [sliceL, List.take_of_length_le (le_of_eq h)]

theorem serializeBytes_length (h : PageHeaderData) : h.serializeBytes.length = 24 := by
  simp [PageHeaderData.serializeBytes, toLe_length]

theorem tupleHeaderBytes_length (h : HeapTupleHeaderData) : h.serializeBytes.length = 23 := by
  simp [HeapTupleHeaderData.serializeBytes, toLe_length]

theorem writeIds_size (ids : List ItemIdData) : ∀ (buf : ByteBuf) (pos : Nat),
    (Page.serialize.writeIds buf ids pos).size = buf.size := by
  induction ids with
  | nil => intro buf pos; rfl
  | cons id rest ih =>
    intro buf pos
    rw [Page.serialize.writeIds, ih]
    rfl

theorem readBytes_writeIds_below (ids : List ItemIdData) : ∀ (buf : ByteBuf) (pos off n : Nat),
    off + n ≤ pos →
    readBytes (Page.serialize.writeIds buf ids pos) off n = readBytes buf off n := by
  induction ids with
  | nil => intro buf pos off n _; rfl
  | cons id rest ih =>
    intro buf pos off n h
    rw [Page.serialize.writeIds, ih _ _ _ _ (by omega),
        readBytes_writeBytes_outside _ _ _ _ _ (by left; omega)]

theorem readBytes_writeIds_at (ids : List ItemIdData) : ∀ (buf : ByteBuf) (pos i : Nat)
    (h : i < ids.length),
    readBytes (Page.serialize.writeIds buf ids pos) (pos + 4 * i) 4 =
      toLe 4 (ids.get ⟨i, h⟩).bits := by
  induction ids with
  | nil => intro buf pos i h; cases h
  | cons id rest ih =>
    intro buf pos i h
    rw [Page.serialize.writeIds]
    match i with
    | 0 =>
      simp only [Nat.mul_zero, Nat.add_zero]
      rw [readBytes_writeIds_below rest _ _ _ _ (by omega),
          readBytes_writeBytes_inside buf pos (toLe 4 id.bits) pos 4 (le_refl pos)
            (by rw [toLe_length]),
          Nat.sub_self, sliceL_all _ _ (toLe_length 4 id.bits)]
      rfl
    | i + 1 =>
      have heq : pos + 4 * (i + 1) = (pos + 4) + 4 * i := by omega
      rw [heq, ih _ (pos + 4) i (by simpa using h)]
      rfl

/-- Little-endian page-header serialization parses back to the same
header when every field fits its width. -/
theorem pageHeader_roundtrip (h : PageHeaderData)
    (b1 : h.pd_lsn < 256 ^ 8) (b2 : h.pd_checksum < 256 ^ 2) (b3 : h.pd_flags < 256 ^ 2)
    (b4 : h.pd_lower < 256 ^ 2) (b5 : h.pd_upper < 256 ^ 2) (b6 : h.pd_special < 256 ^ 2)
    (b7 : h.pd_pagesize_version < 256 ^ 2) (b8 : h.pd_prune_xid < 256 ^ 4) :
    PageHeaderData.deserializeBytes h.serializeBytes = .ok h := by
  obtain ⟨lsn, ck, fl, lo, up, sp, pv, px⟩ := h
  simp only at b1 b2 b3 b4 b5 b6 b7 b8
  unfold PageHeaderData.deserializeBytes
  rw [if_neg (by rw [serializeBytes_length]; omega)]
  simp only [PageHeaderData.serializeBytes, List.append_assoc, Except.ok.injEq,
    PageHeaderData.mk.injEq]
  refine ⟨?_, ?_, ?_, ?_, ?_, ?_, ?_, ?_⟩
  · rw [readLeL_head _ _ _ b1]
  · rw [readLeL_skip _ 8 _ 8 2 (by omega)]
    norm_num
    rw [readLeL_head _ _ _ b2]
  · rw [readLeL_skip _ 8 _ 10 2 (by omega)]
    norm_num
    rw [readLeL_skip _ 2 _ 2 2 (by omega)]
    norm_num
    rw [readLeL_head _ _ _ b3]
  · rw [readLeL_skip _ 8 _ 12 2 (by omega)]
    norm_num
    rw [readLeL_skip _ 2 _ 4 2 (by omega), readLeL_skip _ 2 _ 2 2 (by omega)]
    norm_num
    rw [readLeL_head _ _ _ b4]
  · rw [readLeL_skip _ 8 _ 14 2 (by omega)]
    norm_num
    rw [readLeL_skip _ 2 _ 6 2 (by omega), readLeL_skip _ 2 _ 4 2 (by omega),
        readLeL_skip _ 2 _ 2 2 (by omega)]
    norm_num
    rw [readLeL_head _ _ _ b5]
  · rw [readLeL_skip _ 8 _ 16 2 (by omega)]
    norm_num
    rw [readLeL_skip _ 2 _ 8 2 (by omega), readLeL_skip _ 2 _ 6 2 (by omega),
        readLeL_skip _ 2 _ 4 2 (by omega), readLeL_skip _ 2 _ 2 2 (by omega)]
    norm_num
    rw [readLeL_head _ _ _ b6]
  · rw [readLeL_skip _ 8 _ 18 2 (by omega)]
    norm_num
    rw [readLeL_skip _ 2 _ 10 2 (by omega), readLeL_skip _ 2 _ 8 2 (by omega),
        readLeL_skip _ 2 _ 6 2 (by omega), readLeL_skip _ 2 _ 4 2 (by omega),
        readLeL_skip _ 2 _ 2 2 (by omega)]
    norm_num
    rw [readLeL_head _ _ _ b7]
  · rw [readLeL_skip _ 8 _ 20 4 (by omega)]
    norm_num
    rw [readLeL_skip _ 2 _ 12 4 (by omega), readLeL_skip _ 2 _ 10 4 (by omega),
        readLeL_skip _ 2 _ 8 4 (by omega), readLeL_skip _ 2 _ 6 4 (by omega),
        readLeL_skip _ 2 _ 4 4 (by omega), readLeL_skip _ 2 _ 2 4 (by omega)]
    norm_num
    rw [readLeL_nil_head _ _ b8]

/-- The layout invariants a page reachable through the page API keeps:
fixed 8192-byte geometry, `pd_lower` tracking the item-id array, ordered
bounds, and every header field and item id within its machine width. -/
def PageWF (p : Page) : Prop :=
  p.page_size = BLCKSZ ∧
  p.header.pd_lower = 24 + 4 * p.item_id_data.length ∧
  p.header.pd_lower ≤ p.header.pd_upper ∧
  p.header.pd_upper ≤ BLCKSZ ∧
  p.header.pd_lsn < 256 ^ 8 ∧ p.header.pd_checksum < 256 ^ 2 ∧
  p.header.pd_flags < 256 ^ 2 ∧ p.header.pd_special < 256 ^ 2 ∧
  p.header.pd_pagesize_version < 256 ^ 2 ∧ p.header.pd_prune_xid < 256 ^ 4 ∧
  ∀ id ∈ p.item_id_data, id.bits < 256 ^ 4

theorem serialize_size (p : Page) : p.serialize.size = p.page_size := by
  unfold Page.serialize
  dsimp only
  split
  · rw [writeBytes_size, writeIds_size, writeBytes_size]
    rfl
  · rw [writeIds_size, writeBytes_size]
    rfl

/-- The first 24 bytes of a serialized well-formed page are its header
bytes. -/
theorem serialize_header_bytes (p : Page) (hwf : PageWF p) :
    readBytes p.serialize 0 24 = p.header.serializeBytes := by
  obtain ⟨hps, hlo, hle, hup, _⟩ := hwf
  unfold Page.serialize
  have hread : readBytes
      (Page.serialize.writeIds (writeBytes (zeroBuf p.page_size) 0 p.header.serializeBytes)
        p.item_id_data 24) 0 24 = p.header.serializeBytes := by
    rw [readBytes_writeIds_below _ _ _ _ _ (by omega),
        readBytes_writeBytes_inside _ _ _ 0 24 (by omega)
          (by rw [serializeBytes_length]),
        Nat.sub_zero, sliceL_all _ _ (serializeBytes_length p.header)]
  dsimp only
  split
  · rw [readBytes_writeBytes_outside _ _ _ _ _ (by left; omega), hread]
  · exact hread

/-- Byte range `[24 + 4i, 24 + 4i + 4)` of a serialized well-formed page
is the little-endian image of item id `i`. -/
theorem serialize_id_bytes (p : Page) (hwf : PageWF p) (i : Nat)
    (hi : i < p.item_id_data.length) :
    readBytes p.serialize (24 + 4 * i) 4 = toLe 4 (p.item_id_data.get ⟨i, hi⟩).bits := by
  obtain ⟨hps, hlo, hle, hup, _⟩ := hwf
  unfold Page.serialize
  have hread := readBytes_writeIds_at p.item_id_data
    (writeBytes (zeroBuf p.page_size) 0 p.header.serializeBytes) 24 i hi
  dsimp only
  split
  · rw [readBytes_writeBytes_outside _ _ _ _ _ (by left; omega), hread]
  · exact hread

/-- Byte ranges at or above `pd_upper` of a serialized well-formed page
coincide with the page's body bytes. -/
theorem serialize_body_bytes (p : Page) (hwf : PageWF p) (off n : Nat)
    (h1 : p.header.pd_upper ≤ off) (h2 : off + n ≤ p.page_size) :
    readBytes p.serialize off n = readBytes p.data off n := by
  obtain ⟨hps, hlo, hle, hup, _⟩ := hwf
  unfold Page.serialize
  dsimp only
  split
  · rw [readBytes_writeBytes_inside _ _ _ off n h1 (by rw [readBytes_length]; omega),
        sliceL_readBytes _ _ _ _ _ (by omega)]
    congr 1
    omega
  · have hn : n = 0 := by omega
    subst hn
    rfl

/-- Deserializing a serialized well-formed page succeeds and reproduces
the header and the item-id array exactly. -/
theorem from_raw_serialize (p : Page) (hwf : PageWF p) :
    Page.from_raw p.serialize = .ok
      { header := p.header, item_id_data := p.item_id_data,
        data := p.serialize, page_size := p.page_size } := by
  obtain ⟨hps, hlo, hle, hup, hb1, hb2, hb3, hb4, hb5, hb6, hbits⟩ := hwf
  unfold Page.from_raw
  rw [if_neg (by rw [serialize_size, hps]; omega)]
  rw [serialize_header_bytes p ⟨hps, hlo, hle, hup, hb1, hb2, hb3, hb4, hb5, hb6, hbits⟩]
  rw [pageHeader_roundtrip p.header hb1 hb2 hb3
      (by simp only [BLCKSZ] at *; omega) (by simp only [BLCKSZ] at *; omega)
      hb4 hb5 hb6]
  simp only
  rw [if_neg (by rw [serialize_size, hps]; simp only [BLCKSZ] at *; omega)]
  have hcount : (p.header.pd_lower - 24) / 4 = p.item_id_data.length := by omega
  rw [hcount]
  have hids : (List.range p.item_id_data.length).map
      (fun i => ItemIdData.mk (readLe p.serialize (24 + i * 4) 4)) = p.item_id_data := by
    apply List.ext_getElem
    · simp
    · intro i hi hj
      simp only [List.getElem_map, List.getElem_range]
      have hi' : i < p.item_id_data.length := by simpa using hi
      have : readLe p.serialize (24 + i * 4) 4 =
          fromLe (toLe 4 (p.item_id_data.get ⟨i, hi'⟩).bits) := by
        rw [readLe, show 24 + i * 4 = 24 + 4 * i from by omega,
            serialize_id_bytes p ⟨hps, hlo, hle, hup, hb1, hb2, hb3, hb4, hb5, hb6, hbits⟩ i hi']
      rw [this, fromLe_toLe_of_lt (hbits _ (p.item_id_data.get_mem _ _))]
      rfl
  rw [hids, serialize_size, hps]

/-- Parsing the first 24 bytes of a buffer as a page header always
succeeds and yields the eight little-endian fields. -/
theorem deserializeBytes_readBytes (b : ByteBuf) :
    PageHeaderData.deserializeBytes (readBytes b 0 24) = .ok
      { pd_lsn := readLe b 0 8, pd_checksum := readLe b 8 2, pd_flags := readLe b 10 2,
        pd_lower := readLe b 12 2, pd_upper := readLe b 14 2, pd_special := readLe b 16 2,
        pd_pagesize_version := readLe b 18 2, pd_prune_xid := readLe b 20 4 } := by
  unfold PageHeaderData.deserializeBytes
  rw [if_neg (by rw [readBytes_length]; omega)]
  rw [readLeL_readBytes b 0 24 0 8 (by omega), readLeL_readBytes b 0 24 8 2 (by omega),
      readLeL_readBytes b 0 24 10 2 (by omega), readLeL_readBytes b 0 24 12 2 (by omega),
      readLeL_readBytes b 0 24 14 2 (by omega), readLeL_readBytes b 0 24 16 2 (by omega),
      readLeL_readBytes b 0 24 18 2 (by omega), readLeL_readBytes b 0 24 20 4 (by omega)]

theorem readLeL_of_prefix (lst : List Nat) (k : Nat) (off w : Nat) (h : off + w ≤ k) :
    readLeL lst off w = readLeL (sliceL lst 0 k) off w := by
  unfold readLeL sliceL
  rw [List.drop_zero, List.drop_take, List.take_take,
      Nat.min_eq_left (by omega : w ≤ k - off)]

/-- Little-endian tuple-header serialization parses back to the same
header from any byte list whose first 23 bytes are the header image. -/
theorem tupleHeader_roundtrip (h : HeapTupleHeaderData) (lst : List Nat)
    (hpre : sliceL lst 0 23 = h.serializeBytes) (hlen : ¬lst.length < 24)
    (b1 : h.t_xmin < 256 ^ 4) (b2 : h.t_xmax < 256 ^ 4) (b3 : h.t_cid < 256 ^ 4)
    (b4 : h.t_ctid.block_number < 256 ^ 4) (b5 : h.t_ctid.offset_number < 256 ^ 2)
    (b6 : h.t_infomask2 < 256 ^ 2) (b7 : h.t_infomask < 256 ^ 2) (b8 : h.t_hoff < 256 ^ 1) :
    HeapTupleHeaderData.deserializeBytes lst = .ok h := by
  unfold HeapTupleHeaderData.deserializeBytes
  rw [if_neg (by simp only [HEAP_FIXED_HEADER_SIZE]; omega)]
  rw [show readLeL lst 0 4 = readLeL (sliceL lst 0 23) 0 4 from readLeL_of_prefix _ 23 _ _ (by omega),
      show readLeL lst 4 4 = readLeL (sliceL lst 0 23) 4 4 from readLeL_of_prefix _ 23 _ _ (by omega),
      show readLeL lst 8 4 = readLeL (sliceL lst 0 23) 8 4 from readLeL_of_prefix _ 23 _ _ (by omega),
      show readLeL lst 12 4 = readLeL (sliceL lst 0 23) 12 4 from readLeL_of_prefix _ 23 _ _ (by omega),
      show readLeL lst 16 2 = readLeL (sliceL lst 0 23) 16 2 from readLeL_of_prefix _ 23 _ _ (by omega),
      show readLeL lst 18 2 = readLeL (sliceL lst 0 23) 18 2 from readLeL_of_prefix _ 23 _ _ (by omega),
      show readLeL lst 20 2 = readLeL (sliceL lst 0 23) 20 2 from readLeL_of_prefix _ 23 _ _ (by omega),
      show readLeL lst 22 1 = readLeL (sliceL lst 0 23) 22 1 from readLeL_of_prefix _ 23 _ _ (by omega),
      hpre]
  obtain ⟨xmin, xmax, cid, ⟨blk, offn⟩, im2, im, hoff⟩ := h
  simp only at b1 b2 b3 b4 b5 b6 b7 b8
  simp only [HeapTupleHeaderData.serializeBytes, List.append_assoc, Except.ok.injEq,
    HeapTupleHeaderData.mk.injEq, ItemPointerData.mk.injEq]
  refine ⟨?_, ?_, ?_, ⟨?_, ?_⟩, ?_, ?_, ?_⟩
  · rw [readLeL_head _ _ _ b1]
  · rw [readLeL_skip _ 4 _ 4 4 (by omega)]
    norm_num
    rw [readLeL_head _ _ _ b2]
  · rw [readLeL_skip _ 4 _ 8 4 (by omega)]
    norm_num
    rw [readLeL_skip _ 4 _ 4 4 (by omega)]
    norm_num
    rw [readLeL_head _ _ _ b3]
  · rw [readLeL_skip _ 4 _ 12 4 (by omega)]
    norm_num
    rw [readLeL_skip _ 4 _ 8 4 (by omega), readLeL_skip _ 4 _ 4 4 (by omega)]
    norm_num
    rw [readLeL_head _ _ _ b4]
  · rw [readLeL_skip _ 4 _ 16 2 (by omega)]
    norm_num
    rw [readLeL_skip _ 4 _ 12 2 (by omega), readLeL_skip _ 4 _ 8 2 (by omega),
        readLeL_skip _ 4 _ 4 2 (by omega)]
    norm_num
    rw [readLeL_head _ _ _ b5]
  · rw [readLeL_skip _ 4 _ 18 2 (by omega)]
    norm_num
    rw [readLeL_skip _ 4 _ 14 2 (by omega), readLeL_skip _ 4 _ 10 2 (by omega),
        readLeL_skip _ 4 _ 6 2 (by omega), readLeL_skip _ 2 _ 2 2 (by omega)]
    norm_num
    rw [readLeL_head _ _ _ b6]
  · rw [readLeL_skip _ 4 _ 20 2 (by omega)]
    norm_num
    rw [readLeL_skip _ 4 _ 16 2 (by omega), readLeL_skip _ 4 _ 12 2 (by omega),
        readLeL_skip _ 4 _ 8 2 (by omega), readLeL_skip _ 2 _ 4 2 (by omega),
        readLeL_skip _ 2 _ 2 2 (by omega)]
    norm_num
    rw [readLeL_head _ _ _ b7]
  · rw [readLeL_skip _ 4 _ 22 1 (by omega)]
    norm_num
    rw [readLeL_skip _ 4 _ 18 1 (by omega), readLeL_skip _ 4 _ 14 1 (by omega),
        readLeL_skip _ 4 _ 10 1 (by omega), readLeL_skip _ 2 _ 6 1 (by omega),
        readLeL_skip _ 2 _ 4 1 (by omega), readLeL_skip _ 2 _ 2 1 (by omega)]
    norm_num
    rw [readLeL_nil_head _ _ b8]

theorem tuple_serialize_length (t : HeapTuple) : t.serialize.length = t.tupleSize := by
  unfold HeapTuple.serialize
  cases t.null_bitmap <;> simp [readBytes_length]

/-- For a tuple without a null bitmap the serialized size is the fixed
header plus the payload. -/
theorem tupleSize_no_null (t : HeapTuple) (hnull : t.header.has_null = false) :
    t.tupleSize = 24 + t.data.length := by
  unfold HeapTuple.tupleSize
  rw [hnull]
  simp [HEAP_FIXED_HEADER_SIZE]

/-- `HeapTuple::serialize` then `HeapTuple::deserialize` is the identity
on tuples without a null bitmap whose header fields fit their widths. -/
theorem tuple_roundtrip (t : HeapTuple) (natts : Nat)
    (hnull : t.header.has_null = false) (hbm : t.null_bitmap = none)
    (b1 : t.header.t_xmin < 256 ^ 4) (b2 : t.header.t_xmax < 256 ^ 4)
    (b3 : t.header.t_cid < 256 ^ 4) (b4 : t.header.t_ctid.block_number < 256 ^ 4)
    (b5 : t.header.t_ctid.offset_number < 256 ^ 2) (b6 : t.header.t_infomask2 < 256 ^ 2)
    (b7 : t.header.t_infomask < 256 ^ 2) (b8 : t.header.t_hoff < 256 ^ 1) :
    HeapTuple.deserialize t.serialize natts = .ok t := by
  have hsize : t.tupleSize = 24 + t.data.length := tupleSize_no_null t hnull
  have hlen : t.serialize.length = 24 + t.data.length := by
    rw [tuple_serialize_length, hsize]
  have hpre : sliceL t.serialize 0 23 = t.header.serializeBytes := by
    unfold HeapTuple.serialize
    rw [hbm]
    dsimp only
    simp only [HEAP_FIXED_HEADER_SIZE]
    norm_num
    rw [sliceL_readBytes _ _ _ _ _ (by simp only [hsize]; omega)]
    rw [readBytes_writeBytes_outside _ _ _ _ _ (by left; omega)]
    rw [readBytes_writeBytes_inside _ _ _ 0 23 (by omega)
        (by rw [tupleHeaderBytes_length]),
        Nat.sub_zero, sliceL_all _ _ (tupleHeaderBytes_length t.header)]
  have hdrop : t.serialize.drop 24 = t.data := by
    have hd : t.serialize.drop 24 = sliceL t.serialize 24 t.data.length := by
      rw [sliceL]
      rw [List.take_of_length_le (by rw [List.length_drop, hlen]; omega)]
    rw [hd]
    unfold HeapTuple.serialize
    rw [hbm]
    dsimp only
    simp only [HEAP_FIXED_HEADER_SIZE]
    norm_num
    rw [sliceL_readBytes _ _ _ _ _ (by simp only [hsize]; omega)]
    rw [readBytes_writeBytes_inside _ _ _ 24 t.data.length (by omega) (by omega),
        Nat.sub_self, sliceL_all _ _ rfl]
  unfold HeapTuple.deserialize
  rw [if_neg (by rw [hlen]; simp only [HEAP_FIXED_HEADER_SIZE]; omega)]
  rw [tupleHeader_roundtrip t.header t.serialize hpre
      (by rw [hlen]; omega) b1 b2 b3 b4 b5 b6 b7 b8]
  have hdata_eq : (if 24 < t.serialize.length then t.serialize.drop 24 else []) = t.data := by
    by_cases hc : 24 < t.serialize.length
    · rw [if_pos hc, hdrop]
    · rw [if_neg hc]
      rw [hlen] at hc
      have h0 : t.data.length = 0 := by omega
      exact (List.eq_nil_of_length_eq_zero h0).symm
  dsimp only
  simp only [hnull, Bool.false_eq_true, false_and, if_false, Nat.add_zero,
    HEAP_FIXED_HEADER_SIZE]
  norm_num
  rw [hdata_eq, ← hbm]

/-! ## Reachable transaction-manager states -/

/-- States of the transaction manager reachable by any sequence of
`begin`, `commit`, `abort` and `get_cid` calls. -/
inductive TMReachable : TransactionManagerState → Prop where
  | init : TMReachable TransactionManagerState.init
  | beginTx {tm} : TMReachable tm → TMReachable tm.beginTx.2
  | commit {tm} (xid : Nat) : TMReachable tm → TMReachable (tm.commit xid)
  | abort {tm} (xid : Nat) : TMReachable tm → TMReachable (tm.abort xid)
  | get_cid {tm} : TMReachable tm → TMReachable tm.get_cid.2

/-- Every in-progress xid of a reachable manager state is a normal xid
below the next xid to assign. -/
theorem tm_in_progress_bounds {tm : TransactionManagerState} (h : TMReachable tm) :
    2 ≤ tm.current_xid ∧ ∀ x ∈ tm.in_progress, 2 ≤ x ∧ x < tm.current_xid := by
  induction h with
  | init => simp [TransactionManagerState.init, FIRST_NORMAL_TRANSACTION_ID]
  | beginTx _ ih =>
    obtain ⟨hc, hall⟩ := ih
    refine ⟨by simp [TransactionManagerState.beginTx]; omega, ?_⟩
    intro x hx
    simp only [TransactionManagerState.beginTx, List.mem_append, List.mem_singleton] at hx
    rcases hx with hx | hx
    · have := hall x hx
      simp only [TransactionManagerState.beginTx]
      omega
    · simp only [TransactionManagerState.beginTx]
      omega
  | commit xid _ ih =>
    obtain ⟨hc, hall⟩ := ih
    refine ⟨hc, ?_⟩
    intro x hx
    simp only [TransactionManagerState.commit, List.mem_filter] at hx
    exact hall x hx.1
  | abort xid _ ih =>
    obtain ⟨hc, hall⟩ := ih
    refine ⟨hc, ?_⟩
    intro x hx
    simp only [TransactionManagerState.abort, List.mem_filter] at hx
    exact hall x hx.1
  | get_cid _ ih => exact ih

/-- `Iterator::min` really is a lower bound of the list. -/
theorem listMin_le {l : List Nat} {x : Nat} (hx : x ∈ l) :
    ∃ m, TransactionManagerState.listMin l = some m ∧ m ≤ x := by
  induction l with
  | nil => cases hx
  | cons a as ih =>
    rcases List.mem_cons.mp hx with rfl | hmem
    · refine ⟨_, rfl, ?_⟩
      cases has : TransactionManagerState.listMin as with
      | none => simp
      | some m => simp [has, min_le_left]
    · obtain ⟨m, hm, hle⟩ := ih hmem
      refine ⟨_, rfl, ?_⟩
      rw [hm]
      simp only
      exact le_trans (min_le_right a m) hle

theorem get_item_some_inv (p : Page) (offset : Nat) (body : List Nat)
    (h : p.get_item offset = some body) :
    ∃ hlt : offset - 1 < p.item_id_data.length,
      (p.item_id_data.get ⟨offset - 1, hlt⟩).is_used = true ∧
      (p.item_id_data.get ⟨offset - 1, hlt⟩).offset +
        (p.item_id_data.get ⟨offset - 1, hlt⟩).length ≤ p.page_size ∧
      body = readBytes p.data (p.item_id_data.get ⟨offset - 1, hlt⟩).offset
        (p.item_id_data.get ⟨offset - 1, hlt⟩).length := by
  unfold Page.get_item at h
  by_cases hlt : offset - 1 < p.item_id_data.length
  · rw [dif_pos hlt] at h
    dsimp only at h
    refine ⟨hlt, ?_⟩
    cases hu : (p.item_id_data.get ⟨offset - 1, hlt⟩).is_used
    · rw [hu] at h
      simp at h
    · rw [hu] at h
      simp only [Bool.not_true, Bool.false_eq_true, if_false] at h
      by_cases hb : (p.item_id_data.get ⟨offset - 1, hlt⟩).offset +
          (p.item_id_data.get ⟨offset - 1, hlt⟩).length > p.page_size
      · rw [if_pos hb] at h
        cases h
      · rw [if_neg hb] at h
        exact ⟨rfl, by omega, (Option.some.inj h).symm⟩
  · rw [dif_neg hlt] at h
    cases h

theorem write_item_eq (p : Page) (offset : Nat) (bytes : List Nat)
    (hlt : offset - 1 < p.item_id_data.length)
    (hu : (p.item_id_data.get ⟨offset - 1, hlt⟩).is_used = true)
    (hb : (p.item_id_data.get ⟨offset - 1, hlt⟩).offset +
      (p.item_id_data.get ⟨offset - 1, hlt⟩).length ≤ p.page_size) :
    p.write_item offset bytes =
      { p with data := writeBytes p.data (p.item_id_data.get ⟨offset - 1, hlt⟩).offset bytes } := by
  unfold Page.write_item
  rw [dif_pos hlt]
  dsimp only
  simp only [hu, Bool.not_true, Bool.false_eq_true, if_false]
  rw [if_neg (by omega)]

theorem read_page_write_page (s : StorageState) (blk : Nat) (pg : Page) :
    (s.write_page blk pg).read_page blk = Page.from_raw pg.serialize := by
  unfold StorageState.read_page StorageState.write_page
  simp

/-! ## Claims -/

/-- **C3** (amended): for every tuple header that does not carry the
`XMIN_COMMITTED` and `XMIN_INVALID` hint bits simultaneously,
`Visibility::heap_tuple_satisfies_mvcc` coincides with the spec's §4.5
reference decision procedure (creation test and obsolescence test). -/
theorem claim_C3 (t : HeapTuple) (S : Snapshot) (C : Nat)
    (h : ¬(t.header.xmin_committed = true ∧ t.header.xmin_invalid = true)) :
    Visibility.heap_tuple_satisfies_mvcc t S C = mvccSpec t S C := by
  have hA : Visibility.heap_tuple_satisfiesvisibility t S C = creationTestSpec t S C := by
    unfold Visibility.heap_tuple_satisfiesvisibility creationTestSpec
    by_cases h1 : t.xmin = C
    · simp only [if_pos h1]
    · simp only [if_neg h1]
      by_cases h2 : t.xmin ≥ S.xmin ∧ t.xmin < S.xmax
      · simp only [if_pos h2]
      · simp only [if_neg h2]
        by_cases h3 : t.xmin < S.xmin
        · simp only [if_pos h3]
          cases hcom : t.header.xmin_committed
          · simp
          · cases hinv : t.header.xmin_invalid
            · simp
            · exact absurd ⟨hcom, hinv⟩ h
        · simp only [if_neg h3]
  have hB : Visibility.heap_txns_satisfies_update t S C = obsolescenceTestSpec t S C := by
    unfold Visibility.heap_txns_satisfies_update obsolescenceTestSpec
    by_cases h1 : t.xmax = 0
    · simp only [if_pos h1]
    · simp only [if_neg h1]
      by_cases h2 : t.xmax = C
      · simp only [if_pos h2]
      · simp only [if_neg h2]
        by_cases h3 : t.xmax ≥ S.xmax
        · simp only [if_pos h3]
        · simp only [if_neg h3]
          by_cases h4 : t.xmax < S.xmin
          · simp only [if_pos h4]
          · simp only [if_neg h4]
            cases hcom : t.header.xmax_committed
            · cases hinv : t.header.xmax_invalid
              · cases hlock : t.header.xmax_is_locked_only <;> simp
              · simp
            · simp
  unfold Visibility.heap_tuple_satisfies_mvcc mvccSpec
  rw [hA, hB]
  cases creationTestSpec t S C <;> cases obsolescenceTestSpec t S C <;> simp

/-- **C3** witness: the amended equivalence, applied to a concrete tuple
carrying only the `XMIN_COMMITTED` hint. -/
theorem claim_C3_witness :
    ¬(HeapTupleHeaderData.xmin_committed
        { t_xmin := 4, t_xmax := 0, t_cid := 0, t_ctid := ⟨0, 0⟩,
          t_infomask2 := 2, t_infomask := 0x100, t_hoff := 24 } = true ∧
      HeapTupleHeaderData.xmin_invalid
        { t_xmin := 4, t_xmax := 0, t_cid := 0, t_ctid := ⟨0, 0⟩,
          t_infomask2 := 2, t_infomask := 0x100, t_hoff := 24 } = true) ∧
    Visibility.heap_tuple_satisfies_mvcc
      { header := { t_xmin := 4, t_xmax := 0, t_cid := 0, t_ctid := ⟨0, 0⟩,
                    t_infomask2 := 2, t_infomask := 0x100, t_hoff := 24 },
        null_bitmap := none, data := [] }
      { xmin := 3, xmax := 6, xip := [4], curcid := 0, mode := .MVCC } 9 =
    mvccSpec
      { header := { t_xmin := 4, t_xmax := 0, t_cid := 0, t_ctid := ⟨0, 0⟩,
                    t_infomask2 := 2, t_infomask := 0x100, t_hoff := 24 },
        null_bitmap := none, data := [] }
      { xmin := 3, xmax := 6, xip := [4], curcid := 0, mode := .MVCC } 9 :=
  ⟨by decide, claim_C3 _ _ _ (by decide)⟩

/-- **C3** counterexample: a tuple with both `XMIN_COMMITTED` and
`XMIN_INVALID` set and `t_xmin` below the snapshot's xmin is visible to
the code but not to the spec's reference procedure, so the claimed
unconditional equivalence is false. -/
theorem claim_C3_counterexample :
    Visibility.heap_tuple_satisfies_mvcc
      { header := { t_xmin := 1, t_xmax := 0, t_cid := 0, t_ctid := ⟨0, 0⟩,
                    t_infomask2 := 2, t_infomask := 0x300, t_hoff := 24 },
        null_bitmap := none, data := [] }
      { xmin := 5, xmax := 10, xip := [], curcid := 0, mode := .MVCC } 99 = true ∧
    mvccSpec
      { header := { t_xmin := 1, t_xmax := 0, t_cid := 0, t_ctid := ⟨0, 0⟩,
                    t_infomask2 := 2, t_infomask := 0x300, t_hoff := 24 },
        null_bitmap := none, data := [] }
      { xmin := 5, xmax := 10, xip := [], curcid := 0, mode := .MVCC } 99 = false := by
  decide

/-- **C1** (code bug, spec scenario S4): transaction 2 inserts `"a"` at
(0,1) into a fresh 2-attribute heap and updates it to `"b"`.  The update
returns `Some (0,2)` and the old tuple gets `t_xmax = 2` and
`t_ctid = (0,2)` as claimed, but because `update` writes back the *stale*
old-page image read before the nested insert, the same-page new tuple is
clobbered: `get (0,2)` returns `None` instead of a tuple with
`t_xmin = 2 ∧ t_xmax = 0`. -/
theorem claim_C1 :
    (let run := (HeapRelation.insert 2 2 1 [97] HeapRelation.create).bind (fun r =>
       HeapRelation.update 2 2 1 r.1 [98] r.2)
     run.map Prod.fst = .ok (some ⟨0, 2⟩) ∧
     (run.bind (fun r => HeapRelation.get 2 ⟨0, 2⟩ r.2)) = .ok none ∧
     (run.bind (fun r => HeapRelation.get 2 ⟨0, 1⟩ r.2)).map (Option.map (fun t =>
        (t.header.t_xmax, t.header.t_ctid))) = .ok (some (2, ⟨0, 2⟩))) := by
  decide

/-- **C2** (code bug, spec property 11): transaction 2 inserts a tuple
and commits; transaction 3 begins and captures its snapshot; transaction
4 begins and deletes the tuple (`t_xmax = 4`).  With transactions 3 and 4
still in progress, the tuple is visible to transaction 3's snapshot
(`t_xmax = 4 ≥ S.xmax`), yet `vacuum()` removes it — it reclaims any
tuple with a nonzero `t_xmax` without checking deleter commit state or
live snapshots. -/
theorem claim_C2 :
    (let tm1 := (TransactionManagerState.init.beginTx).2
     let tm2 := tm1.commit 2
     let tm3 := (tm2.beginTx).2
     let S := tm3.get_snapshot 1
     let tm4 := (tm3.beginTx).2
     let run := (HeapRelation.insert 2 2 1 [97] HeapRelation.create).bind (fun r =>
        (HeapRelation.delete 2 4 2 r.1 r.2).map (fun d => (r.1, d.1, d.2)))
     run.map (fun r => r.2.1) = .ok true ∧
     tm4.in_progress = [3, 4] ∧
     (S.xmin, S.xmax, S.xip) = (3, 4, [3]) ∧
     (run.bind (fun r => (HeapRelation.get 2 r.1 r.2.2).map (Option.map (fun t =>
        (t.header.t_xmax, Visibility.heap_tuple_satisfies_mvcc t S 3))))) =
       .ok (some (4, true)) ∧
     (run.bind (fun r => (HeapRelation.vacuum 2 r.2.2).map (fun v => v.1))) = .ok 1 ∧
     (run.bind (fun r => (HeapRelation.vacuum 2 r.2.2).bind (fun v =>
        HeapRelation.get 2 r.1 v.2))) = .ok none) := by
  decide

/-- **C4** (amended): for every page satisfying the layout invariants in
which every USED item's body lies at or above `pd_upper`, deserializing
the serialized image succeeds and reproduces the page: same header, same
item-id array, and the same `get_item` result at every offset.  (The
body-position condition is forced by `remove_item`, which can lift
`pd_upper` past a still-USED item's body; see the counterexample.) -/
theorem claim_C4 (p : Page) (offset : Nat) (hwf : PageWF p)
    (hbody : ∀ id ∈ p.item_id_data, id.is_used = true →
      p.header.pd_upper ≤ id.offset ∧ id.offset + id.length ≤ p.page_size) :
    (Page.from_raw p.serialize).map
      (fun q => (q.header, q.item_id_data, q.get_item offset)) =
    .ok (p.header, p.item_id_data, p.get_item offset) := by
  rw [from_raw_serialize p hwf]
  have hget : Page.get_item
      { header := p.header, item_id_data := p.item_id_data,
        data := p.serialize, page_size := p.page_size } offset = p.get_item offset := by
    unfold Page.get_item
    dsimp only
    by_cases h : offset - 1 < p.item_id_data.length
    · rw [dif_pos h, dif_pos h]
      cases hu : (p.item_id_data.get ⟨offset - 1, h⟩).is_used
      · simp [hu]
      · simp only [hu, Bool.not_true, Bool.false_eq_true, if_false]
        by_cases hb : (p.item_id_data.get ⟨offset - 1, h⟩).offset +
            (p.item_id_data.get ⟨offset - 1, h⟩).length > p.page_size
        · rw [if_pos hb, if_pos hb]
        · rw [if_neg hb, if_neg hb]
          have hm := hbody _ (p.item_id_data.get_mem _ _) hu
          rw [serialize_body_bytes p hwf _ _ hm.1 (by omega)]
    · rw [dif_neg h, dif_neg h]
  rw [Except.map, hget]

/-- **C4** witness: the amended round-trip at the concrete page holding
one item `[97]`, queried at offset 1. -/
theorem claim_C4_witness :
    (PageWF
       { header := { pd_lsn := 0, pd_checksum := 0, pd_flags := 0, pd_lower := 28,
                     pd_upper := 8191, pd_special := 8192, pd_pagesize_version := 4,
                     pd_prune_xid := 0 },
         item_id_data := [ItemIdData.set 8191 1 LP_USED],
         data := writeBytes (zeroBuf 8192) 8191 [97], page_size := 8192 } ∧
     ∀ id ∈ [ItemIdData.set 8191 1 LP_USED], id.is_used = true →
       8191 ≤ id.offset ∧ id.offset + id.length ≤ 8192) ∧
    (Page.from_raw
       (Page.serialize
         { header := { pd_lsn := 0, pd_checksum := 0, pd_flags := 0, pd_lower := 28,
                       pd_upper := 8191, pd_special := 8192, pd_pagesize_version := 4,
                       pd_prune_xid := 0 },
           item_id_data := [ItemIdData.set 8191 1 LP_USED],
           data := writeBytes (zeroBuf 8192) 8191 [97], page_size := 8192 })).map
      (fun q => (q.header, q.item_id_data, q.get_item 1)) =
    .ok
      ({ pd_lsn := 0, pd_checksum := 0, pd_flags := 0, pd_lower := 28,
         pd_upper := 8191, pd_special := 8192, pd_pagesize_version := 4,
         pd_prune_xid := 0 },
       [ItemIdData.set 8191 1 LP_USED],
       Page.get_item
         { header := { pd_lsn := 0, pd_checksum := 0, pd_flags := 0, pd_lower := 28,
                       pd_upper := 8191, pd_special := 8192, pd_pagesize_version := 4,
                       pd_prune_xid := 0 },
           item_id_data := [ItemIdData.set 8191 1 LP_USED],
           data := writeBytes (zeroBuf 8192) 8191 [97], page_size := 8192 } 1) :=
  ⟨⟨by unfold PageWF; decide, by decide⟩,
   claim_C4 _ 1 (by unfold PageWF; decide) (by decide)⟩

/-- **C4** counterexample: add `[9,9,9,9]` then `[7,7,7,7]` to a fresh
8192-byte page and `remove_item 1`.  `pd_upper` jumps past item 2's
still-USED body, so the serialize/deserialize round-trip zeroes it:
`get_item 2` is `[7,7,7,7]` before and `[0,0,0,0]` after, refuting the
claimed round-trip for this reachable page state. -/
theorem claim_C4_counterexample :
    (((Page.new 8192).add_item [9, 9, 9, 9]).bind (fun r =>
       (r.2.add_item [7, 7, 7, 7]).bind (fun r2 =>
         r2.2.remove_item 1))).map (fun p3 =>
           (p3.header.pd_upper, p3.get_item 2,
            (Page.from_raw p3.serialize).map (fun q => q.get_item 2))) =
    .ok (8192, some [7, 7, 7, 7], .ok (some [0, 0, 0, 0])) := by
  decide

/-- **C8** (amended): for a stored tuple with `t_xmax = 0` on a
well-formed page whose USED item bodies sit at or above `pd_upper`, once
`delete` by a nonzero xid returns `Ok(true)`, a second `delete` of the
same ctid by any transaction returns `Ok(false)` rather than an error,
and `get` still yields a tuple whose `t_xmax` is the (nonzero) first
deleter.  The body-position restriction is forced: vacuum's
`remove_item` can lift `pd_upper` past a still-USED body, after which
`delete`'s `t_xmax` write is dropped at page serialization and a second
`delete` returns `Ok(true)` again (see the counterexample). -/
theorem claim_C8 (natts xid cid xid2 cid2 : Nat) (s : StorageState)
    (ctid : ItemPointerData) (p : Page) (t : HeapTuple) (body : List Nat)
    (hread : s.read_page ctid.block_number = .ok p)
    (hwf : PageWF p)
    (hbody : ∀ id ∈ p.item_id_data, id.is_used = true →
      p.header.pd_upper ≤ id.offset ∧ id.offset + id.length ≤ p.page_size)
    (hget : p.get_item ctid.offset_number = some body)
    (hdes : HeapTuple.deserialize body natts = .ok t)
    (hxmax : t.header.t_xmax = 0)
    (hnull : t.header.has_null = false) (hbm : t.null_bitmap = none)
    (hblen : body.length = 24 + t.data.length)
    (hxid : xid ≠ 0) (hx32 : xid < 256 ^ 4) (hc32 : cid < 256 ^ 4)
    (b1 : t.header.t_xmin < 256 ^ 4) (b4 : t.header.t_ctid.block_number < 256 ^ 4)
    (b5 : t.header.t_ctid.offset_number < 256 ^ 2) (b6 : t.header.t_infomask2 < 256 ^ 2)
    (b7 : t.header.t_infomask < 256 ^ 2) (b8 : t.header.t_hoff < 256 ^ 1) :
    (HeapRelation.delete natts xid cid ctid s).map Prod.fst = .ok true ∧
    ((HeapRelation.delete natts xid cid ctid s).bind (fun r =>
       (HeapRelation.delete natts xid2 cid2 ctid r.2).map Prod.fst)) = .ok false ∧
    ((HeapRelation.delete natts xid cid ctid s).bind (fun r =>
       (HeapRelation.get natts ctid r.2).map (Option.map (fun u => u.header.t_xmax)))) =
      .ok (some xid) := by
  have hA : HeapRelation.delete natts xid cid ctid s = .ok (true,
      s.write_page ctid.block_number (p.write_item ctid.offset_number
        (HeapTuple.serialize { t with header :=
          { t.header with t_xmax := xid, t_cid := cid } }))) := by
    unfold HeapRelation.delete
    rw [hread]
    simp only [Except.bind, bind]
    rw [hget]
    simp only [pure, Except.pure, Except.bind]
    rw [hdes]
    simp only [Except.bind]
    rw [if_neg (by simp [HeapTuple.xmax, hxmax])]
  obtain ⟨hlt, hu, hb, hbodyeq⟩ := get_item_some_inv p ctid.offset_number body hget
  set idoff := (p.item_id_data.get ⟨ctid.offset_number - 1, hlt⟩).offset with hidoff
  set idlen := (p.item_id_data.get ⟨ctid.offset_number - 1, hlt⟩).length with hidlen
  have hup : p.header.pd_upper ≤ idoff :=
    (hbody _ (p.item_id_data.get_mem _ _) hu).1
  have hlenser : (HeapTuple.serialize { t with header :=
      { t.header with t_xmax := xid, t_cid := cid } }).length = idlen := by
    have hnull' : ({ t with header := { t.header with t_xmax := xid, t_cid := cid } } :
        HeapTuple).header.has_null = false := hnull
    rw [tuple_serialize_length, tupleSize_no_null _ hnull']
    have hbl : body.length = idlen := by rw [hbodyeq, readBytes_length]
    have hdl : ({ t with header := { t.header with t_xmax := xid, t_cid := cid } } :
        HeapTuple).data.length = t.data.length := rfl
    omega
  have hwrite : p.write_item ctid.offset_number (HeapTuple.serialize { t with header :=
      { t.header with t_xmax := xid, t_cid := cid } }) =
      { p with data := writeBytes p.data idoff (HeapTuple.serialize { t with header :=
        { t.header with t_xmax := xid, t_cid := cid } }) } :=
    write_item_eq p _ _ hlt hu hb
  have hwf' : PageWF { p with data := writeBytes p.data idoff (HeapTuple.serialize
      { t with header := { t.header with t_xmax := xid, t_cid := cid } }) } := hwf
  have hread' : (s.write_page ctid.block_number
      { p with data := writeBytes p.data idoff (HeapTuple.serialize
        { t with header := { t.header with t_xmax := xid, t_cid := cid } }) }).read_page
      ctid.block_number = .ok
      { header := p.header, item_id_data := p.item_id_data,
        data := Page.serialize { p with data := writeBytes p.data idoff (HeapTuple.serialize
          { t with header := { t.header with t_xmax := xid, t_cid := cid } }) },
        page_size := p.page_size } := by
    rw [read_page_write_page, from_raw_serialize _ hwf']
  have hget' : Page.get_item
      { header := p.header, item_id_data := p.item_id_data,
        data := Page.serialize { p with data := writeBytes p.data idoff (HeapTuple.serialize
          { t with header := { t.header with t_xmax := xid, t_cid := cid } }) },
        page_size := p.page_size } ctid.offset_number =
      some (HeapTuple.serialize { t with header :=
        { t.header with t_xmax := xid, t_cid := cid } }) := by
    unfold Page.get_item
    rw [dif_pos hlt]
    dsimp only
    simp only [hu, Bool.not_true, Bool.false_eq_true, if_false]
    rw [if_neg (by omega)]
    rw [serialize_body_bytes _ hwf' idoff idlen hup
        (by show idoff + idlen ≤ p.page_size; omega)]
    show some (readBytes (writeBytes p.data idoff _) idoff idlen) = _
    rw [readBytes_writeBytes_inside _ _ _ idoff idlen (le_refl _) (by omega),
        Nat.sub_self, sliceL_all _ _ hlenser]
  have hdes' : HeapTuple.deserialize (HeapTuple.serialize { t with header :=
      { t.header with t_xmax := xid, t_cid := cid } }) natts = .ok
      { t with header := { t.header with t_xmax := xid, t_cid := cid } } :=
    tuple_roundtrip _ natts hnull hbm b1 hx32 hc32 b4 b5 b6 b7 b8
  refine ⟨by rw [hA]; rfl, ?_, ?_⟩
  · rw [hA]
    simp only [Except.bind]
    rw [hwrite]
    unfold HeapRelation.delete
    rw [hread']
    simp only [Except.bind, bind]
    rw [hget']
    simp only [pure, Except.pure, Except.bind]
    rw [hdes']
    simp only [Except.bind]
    rw [if_pos (by show xid ≠ 0; exact hxid)]
    rfl
  · rw [hA]
    simp only [Except.bind]
    rw [hwrite]
    unfold HeapRelation.get
    rw [hread']
    simp only [Except.bind, bind]
    rw [hget']
    simp only [pure, Except.pure, Except.bind, Except.map]
    rw [hdes']
    simp only [Except.bind]
    rfl


/-- **C8** counterexample: insert two tuples, delete the first, vacuum.
`remove_item` lifts `pd_upper` to 8192 past tuple 2's still-USED body,
so every later write-back of that body is dropped at serialization.
Afterwards ctid (0,2) holds a stored tuple with `t_xmax = 0`; `delete`
returns `Ok(true)` but its `t_xmax` write is lost, a second `delete`
returns `Ok(true)` rather than the claimed `Ok(false)`, and `get` still
reports `t_xmax = 0` rather than a nonzero xmax — refuting the claim as
stated. -/
theorem claim_C8_counterexample :
    (let run := (HeapRelation.insert 2 2 1 [97] HeapRelation.create).bind (fun r1 =>
       (HeapRelation.insert 2 2 1 [98] r1.2).bind (fun r2 =>
         (HeapRelation.delete 2 3 2 r1.1 r2.2).bind (fun d1 =>
           (HeapRelation.vacuum 2 d1.2).map (fun v => (r2.1, v.2)))))
     run.map (fun r => r.1) = .ok ⟨0, 2⟩ ∧
     (run.bind (fun r => (HeapRelation.get 2 r.1 r.2).map (Option.map (fun t =>
        t.header.t_xmax)))) = .ok (some 0) ∧
     (run.bind (fun r => (HeapRelation.delete 2 4 3 r.1 r.2).map Prod.fst)) = .ok true ∧
     (run.bind (fun r => (HeapRelation.delete 2 4 3 r.1 r.2).bind (fun d =>
        (HeapRelation.delete 2 5 4 r.1 d.2).map Prod.fst))) = .ok true ∧
     (run.bind (fun r => (HeapRelation.delete 2 4 3 r.1 r.2).bind (fun d =>
        (HeapRelation.get 2 r.1 d.2).map (Option.map (fun u => u.header.t_xmax))))) =
       .ok (some 0)) := by
  decide

def c8Tuple : HeapTuple :=
  { header := { t_xmin := 2, t_xmax := 0, t_cid := 1, t_ctid := ⟨0, 1⟩,
                t_infomask2 := 2, t_infomask := 0, t_hoff := 24 },
    null_bitmap := none, data := [97] }

def c8Page : Page :=
  { header := { pd_lsn := 0, pd_checksum := 0, pd_flags := 0, pd_lower := 28,
                pd_upper := 8167, pd_special := 8192, pd_pagesize_version := 4,
                pd_prune_xid := 0 },
    item_id_data := [ItemIdData.set 8167 25 LP_USED],
    data := writeBytes (zeroBuf 8192) 8167 c8Tuple.serialize, page_size := 8192 }

def c8Store : StorageState :=
  { pages := fun b => if b = 0 then some c8Page.serialize else none, max_block := 0 }

/-- **C8** witness: the double-delete behaviour on a concrete one-tuple
relation, first deleter xid 3, second deleter xid 4. -/
theorem claim_C8_witness :
    (c8Tuple.header.t_xmax = 0 ∧ (3 : Nat) ≠ 0) ∧
    ((HeapRelation.delete 2 3 1 ⟨0, 1⟩ c8Store).map Prod.fst = .ok true ∧
     ((HeapRelation.delete 2 3 1 ⟨0, 1⟩ c8Store).bind (fun r =>
        (HeapRelation.delete 2 4 2 ⟨0, 1⟩ r.2).map Prod.fst)) = .ok false ∧
     ((HeapRelation.delete 2 3 1 ⟨0, 1⟩ c8Store).bind (fun r =>
        (HeapRelation.get 2 ⟨0, 1⟩ r.2).map (Option.map (fun u => u.header.t_xmax)))) =
       .ok (some 3)) :=
  ⟨⟨rfl, by decide⟩,
   claim_C8 2 3 1 4 2 c8Store ⟨0, 1⟩
     { header := c8Page.header, item_id_data := c8Page.item_id_data,
       data := c8Page.serialize, page_size := c8Page.page_size }
     c8Tuple c8Tuple.serialize
     (by rw [show StorageState.read_page c8Store 0 = Page.from_raw c8Page.serialize from rfl,
             from_raw_serialize c8Page (by unfold PageWF; decide)])
     (by unfold PageWF; decide) (by decide) (by decide) (by decide) (by decide)
     (by decide) (by decide) (by decide) (by decide) (by decide) (by decide)
     (by decide) (by decide) (by decide) (by decide) (by decide) (by decide)⟩

/-- **C7** (amended): `Page::from_raw` succeeds exactly when the image is
at least a page long and the decoded header satisfies `pd_lower ≥ 24`,
`pd_upper ≤ page_size` and `pd_lower ≤ pd_upper`; `pd_special` is *not*
validated (see the counterexample). -/
theorem claim_C7 (data : ByteBuf) :
    (Page.from_raw data).isOk = true ↔
      (BLCKSZ ≤ data.size ∧ 24 ≤ readLe data 12 2 ∧ readLe data 14 2 ≤ data.size ∧
       readLe data 12 2 ≤ readLe data 14 2) := by
  unfold Page.from_raw
  by_cases hs : data.size < BLCKSZ
  · rw [if_pos hs]
    simp only [Except.isOk, Except.toBool]
    constructor
    · intro h; cases h
    · intro ⟨h1, _⟩; omega
  · rw [if_neg hs, deserializeBytes_readBytes]
    simp only
    by_cases hl : readLe data 12 2 < 24 ∨ readLe data 14 2 > data.size ∨
        readLe data 12 2 > readLe data 14 2
    · rw [if_pos hl]
      simp only [Except.isOk, Except.toBool]
      constructor
      · intro h; cases h
      · intro ⟨_, h2, h3, h4⟩; omega
    · rw [if_neg hl]
      simp only [Except.isOk, Except.toBool, true_iff]
      omega

/-- **C7** counterexample: an 8192-byte image whose header has
`pd_lower = 24`, `pd_upper = 8192` but `pd_special = 0 ≠ page_size` is
accepted by `Page::from_raw`, refuting the claim that such an image fails
with `InvalidPage`. -/
theorem claim_C7_counterexample :
    (Page.from_raw ⟨8192, fun i => if i = 12 then 24 else if i = 15 then 32 else 0⟩).map
      (fun p => (p.header.pd_special, p.header.pd_lower, p.header.pd_upper, p.page_size)) =
    .ok (0, 24, 8192, 8192) := by decide

/-- **C5** (amended): an aborted inserter's tuple becomes invisible under
MVCC only through hint bits: a tuple whose `XMIN_INVALID` hint is set
(and `XMIN_COMMITTED` clear) is invisible to every snapshot for every
reader whose current xid differs from `t_xmin`.  (The MVCC predicate
never consults the commit table, so without the hint the tuple of an
aborted transaction stays visible; see the counterexample.) -/
theorem claim_C5 (t : HeapTuple) (S : Snapshot) (C : Nat)
    (hx : t.header.t_xmin ≠ C) (hinv : t.header.xmin_invalid = true)
    (hcom : t.header.xmin_committed = false) :
    Visibility.heap_tuple_satisfies_mvcc t S C = false := by
  have hA : Visibility.heap_tuple_satisfiesvisibility t S C = false := by
    unfold Visibility.heap_tuple_satisfiesvisibility
    have hx' : t.xmin ≠ C := hx
    simp only [if_neg hx', hinv, hcom]
    by_cases h2 : t.xmin ≥ S.xmin ∧ t.xmin < S.xmax
    · simp [if_pos h2]
    · simp only [if_neg h2]
      by_cases h3 : t.xmin < S.xmin
      · simp [if_pos h3]
      · simp [if_neg h3]
  unfold Visibility.heap_tuple_satisfies_mvcc
  simp [hA]

/-- **C5** witness: the amended invisibility, applied to a concrete tuple
with the `XMIN_INVALID` hint set. -/
theorem claim_C5_witness :
    ((2 : Nat) ≠ 3 ∧
     HeapTupleHeaderData.xmin_invalid
       { t_xmin := 2, t_xmax := 0, t_cid := 1, t_ctid := ⟨0, 1⟩,
         t_infomask2 := 2, t_infomask := 0x200, t_hoff := 24 } = true) ∧
    Visibility.heap_tuple_satisfies_mvcc
      { header := { t_xmin := 2, t_xmax := 0, t_cid := 1, t_ctid := ⟨0, 1⟩,
                    t_infomask2 := 2, t_infomask := 0x200, t_hoff := 24 },
        null_bitmap := none, data := [97] }
      { xmin := 2, xmax := 3, xip := [], curcid := 1, mode := .MVCC } 3 = false :=
  ⟨by decide, claim_C5 _ _ _ (by decide) (by decide) (by decide)⟩

/-- **C5** counterexample: transaction 2 begins, inserts `"a"`, and is
aborted at the manager; a snapshot captured after the abort and a reader
with current xid 3 still *see* the tuple (its hint bits are all clear and
the predicate never consults the commit table), refuting the claimed
invisibility. -/
theorem claim_C5_counterexample :
    (let tm1 := (TransactionManagerState.init.beginTx).2
     let tm2 := tm1.abort 2
     let S := tm2.get_snapshot 1
     ((HeapRelation.insert 2 2 1 [97] HeapRelation.create).bind
        (fun r => (HeapRelation.get 2 r.1 r.2).map (fun o => o.map (fun t =>
           (t.header.t_xmin, t.header.t_infomask,
            Visibility.heap_tuple_satisfies_mvcc t S 3)))))
       = .ok (some (2, 0, true)) ∧
     tm2.is_committed 2 = false ∧ S.xmin = 2 ∧ S.xmax = 3 ∧ S.xip = []) := by
  decide

/-- **C6**: every snapshot captured from a reachable manager state has
`S.xmin ≤ x < S.xmax` for every `x ∈ S.xip`. -/
theorem claim_C6 (tm : TransactionManagerState) (h : TMReachable tm) (cid x : Nat)
    (hx : x ∈ (tm.get_snapshot cid).xip) :
    (tm.get_snapshot cid).xmin ≤ x ∧ x < (tm.get_snapshot cid).xmax := by
  obtain ⟨hcur, hall⟩ := tm_in_progress_bounds h
  have hx' : x ∈ tm.in_progress := hx
  have hne : tm.in_progress.isEmpty = false := by
    cases hl : tm.in_progress with
    | nil => rw [hl] at hx'; cases hx'
    | cons a as => simp [hl]
  obtain ⟨m, hm, hle⟩ := listMin_le hx'
  constructor
  · show (if tm.in_progress.isEmpty then tm.current_xid - 1
          else (TransactionManagerState.listMin tm.in_progress).getD (tm.current_xid - 1)) ≤ x
    rw [hne]
    simp only [Bool.false_eq_true, if_false, hm, Option.getD_some]
    exact hle
  · exact (hall x hx').2

/-- **C6** witness: the snapshot bounds at the concrete reachable state
with one in-progress transaction (xid 2). -/
theorem claim_C6_witness :
    (2 : Nat) ∈ ((TransactionManagerState.init.beginTx).2.get_snapshot 1).xip ∧
    (((TransactionManagerState.init.beginTx).2.get_snapshot 1).xmin ≤ 2 ∧
     2 < ((TransactionManagerState.init.beginTx).2.get_snapshot 1).xmax) :=
  ⟨by decide, claim_C6 _ (TMReachable.beginTx TMReachable.init) 1 2 (by decide)⟩

/-- **C9**: `Transaction::commit(self)` runs the manager `commit` and then
the `Drop` impl of the consumed value, which aborts the same xid; hence
after `HeapEngine::commit()` the manager records the xid as aborted
(`committed[xid] = false`), drops it from `in_progress`, and
`is_committed` reports `false` for it. -/
theorem claim_C9 (e : HeapEngineState) (xid cid : Nat)
    (htx : e.current_tx = some (xid, cid)) (h2 : 2 ≤ xid) :
    e.commit.tm.is_committed xid = false ∧
    TransactionManagerState.lookupCommitted e.commit.tm.committed xid = some false ∧
    xid ∉ e.commit.tm.in_progress := by
  unfold HeapEngineState.commit
  rw [htx]
  simp only [Transaction.commitRun, TransactionManagerState.abort,
    TransactionManagerState.commit, TransactionManagerState.insertCommitted]
  refine ⟨?_, ?_, ?_⟩
  · unfold TransactionManagerState.is_committed
    rw [if_neg (by simp only [INVALID_TRANSACTION_ID]; omega),
        if_neg (by simp only [BOOTSTRAP_TRANSACTION_ID]; omega)]
    simp [TransactionManagerState.lookupCommitted]
  · simp [TransactionManagerState.lookupCommitted]
  · intro hmem
    simp only [List.mem_filter, decide_eq_true_eq] at hmem
    exact hmem.2 rfl

/-- **C9** witness: committing the engine's active transaction (xid 2)
leaves `is_committed 2 = false`. -/
theorem claim_C9_witness :
    (({ natts := 2, storage := HeapRelation.create,
        tm := (TransactionManagerState.init.beginTx).2,
        current_tx := some (2, 1) } : HeapEngineState).current_tx = some (2, 1)) ∧
    (({ natts := 2, storage := HeapRelation.create,
        tm := (TransactionManagerState.init.beginTx).2,
        current_tx := some (2, 1) } : HeapEngineState).commit.tm.is_committed 2 = false ∧
     TransactionManagerState.lookupCommitted
       ({ natts := 2, storage := HeapRelation.create,
          tm := (TransactionManagerState.init.beginTx).2,
          current_tx := some (2, 1) } : HeapEngineState).commit.tm.committed 2 = some false ∧
     2 ∉ ({ natts := 2, storage := HeapRelation.create,
            tm := (TransactionManagerState.init.beginTx).2,
            current_tx := some (2, 1) } : HeapEngineState).commit.tm.in_progress) :=
  ⟨rfl, claim_C9 _ 2 1 rfl (by decide)⟩

/-- **C10**: with no active transaction, `HeapEngine::scan` captures its
snapshot at command id 0 and evaluates visibility at current xid 2
(`TransactionId::first_normal()`); any tuple with `t_xmin = 2` passes the
MVCC creation test under every snapshot. -/
theorem claim_C10 (e : HeapEngineState) (t : HeapTuple) (S : Snapshot)
    (htx : e.current_tx = none) (hx : t.header.t_xmin = 2) :
    e.scan = HeapRelation.scan e.natts (e.tm.get_snapshot 0) FIRST_NORMAL_TRANSACTION_ID e.storage ∧
    (e.tm.get_snapshot 0).curcid = 0 ∧
    Visibility.heap_tuple_satisfiesvisibility t S FIRST_NORMAL_TRANSACTION_ID = true := by
  refine ⟨?_, rfl, ?_⟩
  · unfold HeapEngineState.scan
    rw [htx]
  · unfold Visibility.heap_tuple_satisfiesvisibility
    have : t.xmin = FIRST_NORMAL_TRANSACTION_ID := hx
    rw [if_pos this]

/-- **C10** witness: the no-transaction scan shape and the creation test
at a concrete tuple with `t_xmin = 2` while transaction 2 is still in
progress. -/
theorem claim_C10_witness :
    (({ natts := 2, storage := HeapRelation.create,
        tm := (TransactionManagerState.init.beginTx).2,
        current_tx := none } : HeapEngineState).current_tx = none ∧
     HeapTupleHeaderData.t_xmin
       { t_xmin := 2, t_xmax := 0, t_cid := 1, t_ctid := ⟨0, 1⟩,
         t_infomask2 := 2, t_infomask := 0, t_hoff := 24 } = 2) ∧
    (({ natts := 2, storage := HeapRelation.create,
        tm := (TransactionManagerState.init.beginTx).2,
        current_tx := none } : HeapEngineState).scan =
       HeapRelation.scan 2
         ((TransactionManagerState.init.beginTx).2.get_snapshot 0)
         FIRST_NORMAL_TRANSACTION_ID HeapRelation.create ∧
     ((TransactionManagerState.init.beginTx).2.get_snapshot 0).curcid = 0 ∧
     Visibility.heap_tuple_satisfiesvisibility
       { header := { t_xmin := 2, t_xmax := 0, t_cid := 1, t_ctid := ⟨0, 1⟩,
                     t_infomask2 := 2, t_infomask := 0, t_hoff := 24 },
         null_bitmap := none, data := [97] }
       ((TransactionManagerState.init.beginTx).2.get_snapshot 0)
       FIRST_NORMAL_TRANSACTION_ID = true) :=
  ⟨⟨rfl, rfl⟩, claim_C10 _ _ _ rfl rfl⟩

end PgCore
